import Mathlib

/-!
Shallow embedding of the AEM Component Generator shipped in this repository
(src/js/generator.js, src/js/components.js and the templates library that
defines createNamingConventions, interpolateTemplate and AEMTemplates).
JavaScript strings are modelled as lists of natural numbers, one per UTF-16
code unit.  Every case conversion in the source is applied to ASCII-only
data - the inputs have already been filtered through the character class
[a-zA-Z0-9] or one of its derivatives - so the ASCII-only case maps defined
here agree with String.prototype.toLowerCase / toUpperCase on every string
the source actually feeds to them.
-/

/-- Code units of a Lean string literal; used to transcribe JavaScript literals. -/
def String.toNats (s : String) : List Nat := s.toList.map (fun c => c.toNat)

namespace VibeGen

/-- JavaScript strings are modelled as lists of UTF-16 code units. -/
abbrev Str := List Nat

/-- Code unit of the dash character. -/
def dashC : Nat := ('-').toNat

/-- Code unit of the underscore character. -/
def underC : Nat := ('_').toNat

/-- Code unit of the space character. -/
def spaceC : Nat := (' ').toNat

/-- Code unit of the dot character. -/
def dotC : Nat := ('.').toNat

/-- Membership in the regex character range a-z. -/
def isLowerA (c : Nat) : Bool := decide (97 ≤ c ∧ c ≤ 122)

/-- Membership in the regex character range A-Z. -/
def isUpperA (c : Nat) : Bool := decide (65 ≤ c ∧ c ≤ 90)

/-- Membership in the regex character range 0-9. -/
def isDigitA (c : Nat) : Bool := decide (48 ≤ c ∧ c ≤ 57)

/-- The JavaScript regex character class [a-zA-Z0-9]. -/
def isAlnum (c : Nat) : Bool := isLowerA c || isUpperA c || isDigitA c

/-- The JavaScript regex class \s (WhiteSpace plus LineTerminator code points). -/
def isJsSpace (c : Nat) : Bool :=
  decide ((9 ≤ c ∧ c ≤ 13) ∨ c = 32 ∨ c = 160 ∨ c = 5760 ∨ (8192 ≤ c ∧ c ≤ 8202) ∨
    c = 8232 ∨ c = 8233 ∨ c = 8239 ∨ c = 8287 ∨ c = 12288 ∨ c = 65279)

/-- ASCII lower casing, the restriction of String.prototype.toLowerCase to the
ASCII-only strings the source applies it to. -/
def toLowerJS (c : Nat) : Nat := if isUpperA c then c + 32 else c

/-- ASCII upper casing, the restriction of String.prototype.toUpperCase to the
ASCII-only strings the source applies it to. -/
def toUpperJS (c : Nat) : Nat := if isLowerA c then c - 32 else c

/-- String.prototype.trim: drop leading and trailing \s code units. -/
def jsTrim (s : Str) : Str := ((s.dropWhile isJsSpace).reverse.dropWhile isJsSpace).reverse

/-- The global regex replace of [^a-zA-Z0-9] by a fixed substitute character. -/
def replaceNonAlnum (sub : Nat) (s : Str) : Str := s.map (fun c => if isAlnum c then c else sub)

/-- The global regex replace of a run of d characters (regex d+) by a single d. -/
def collapseRun (d : Nat) : Str → Str
  | [] => []
  | [a] => [a]
  | a :: b :: rest =>
      if a = d ∧ b = d then collapseRun d (b :: rest) else a :: collapseRun d (b :: rest)

/-- Drop one leading d character if present. -/
def stripLead (d : Nat) : Str → Str
  | [] => []
  | a :: rest => if a = d then rest else a :: rest

/-- Drop one trailing d character if present.  Together with stripLead this is
what the global regex replace of leading-or-trailing d amounts to: the anchored
alternation can match at most once at each end of the string. -/
def stripTrail (d : Nat) (s : Str) : Str := (stripLead d s.reverse).reverse

/-- The kebabCase chain of createNamingConventions: replace every
non-alphanumeric character with a dash, collapse dash runs, lower-case, then
strip one leading and one trailing dash. -/
def kebabCaseJS (s : Str) : Str :=
  stripTrail dashC (stripLead dashC ((collapseRun dashC (replaceNonAlnum dashC s)).map toLowerJS))

/-- The snakeCase chain of createNamingConventions, same as kebab with underscores. -/
def snakeCaseJS (s : Str) : Str :=
  stripTrail underC (stripLead underC ((collapseRun underC (replaceNonAlnum underC s)).map toLowerJS))

/-- constantCase: snakeCase upper-cased. -/
def constantCaseJS (s : Str) : Str := (snakeCaseJS s).map toUpperJS

/-- String.prototype.split on a single separator character.  Always returns at
least one (possibly empty) chunk, like the JavaScript split. -/
def splitOnChar (d : Nat) : Str → List Str
  | [] => [[]]
  | c :: rest =>
      let r := splitOnChar d rest
      if c = d then [] :: r else (c :: r.headD []) :: r.tail

/-- The word list used by the camelCase chain: replace non-alphanumerics by
spaces, collapse space runs (the \s+ replace only ever sees spaces here), trim,
split on spaces. -/
def wordsOf (s : Str) : List Str :=
  splitOnChar spaceC (jsTrim (collapseRun spaceC (replaceNonAlnum spaceC s)))

/-- Per-word recasing word.charAt(0).toUpperCase() + word.slice(1).toLowerCase(). -/
def capitalizeJS (w : Str) : Str :=
  match w with
  | [] => []
  | c :: rest => toUpperJS c :: rest.map toLowerJS

/-- The camelCase chain of createNamingConventions: first word lower-cased
entirely, every later word capitalized, all concatenated. -/
def camelCaseJS (s : Str) : Str :=
  match wordsOf s with
  | [] => []
  | w :: ws => w.map toLowerJS ++ (ws.map capitalizeJS).flatten

/-- pascalCase: camelCase with its first code unit upper-cased. -/
def pascalCaseJS (s : Str) : Str :=
  match camelCaseJS s with
  | [] => []
  | c :: rest => toUpperJS c :: rest

/-- The record returned by createNamingConventions. -/
structure NamingConventions where
  camelCase : Str
  pascalCase : Str
  kebabCase : Str
  snakeCase : Str
  constantCase : Str
  original : Str
  deriving Repr, DecidableEq

/-- createNamingConventions from the templates library. -/
def createNamingConventions (s : Str) : NamingConventions :=
  ⟨camelCaseJS s, pascalCaseJS s, kebabCaseJS s, snakeCaseJS s, constantCaseJS s, s⟩

/-- ComponentGenerator.getKebabCaseName from src/js/generator.js. -/
def getKebabCaseName (name : Str) : Str :=
  stripTrail dashC (stripLead dashC ((collapseRun dashC (replaceNonAlnum dashC name)).map toLowerJS))

/-- ComponentGenerator.getPascalCaseName from src/js/generator.js: every word
capitalized, concatenated. -/
def getPascalCaseName (name : Str) : Str :=
  ((splitOnChar spaceC (jsTrim (collapseRun spaceC (replaceNonAlnum spaceC name)))).map capitalizeJS).flatten

/-- ComponentGenerator.getCamelCaseName from src/js/generator.js: pascal case
with the first code unit lower-cased. -/
def getCamelCaseName (name : Str) : Str :=
  match getPascalCaseName name with
  | [] => []
  | c :: rest => toLowerJS c :: rest

/-- The regex character class [a-zA-Z]. -/
def isAlphaA (c : Nat) : Bool := isLowerA c || isUpperA c

/-- Matching against the anchored regex of the component-name rule,
caret [a-zA-Z][a-zA-Z0-9 backslash-s] star dollar. -/
def testDisplayNameRegex (s : Str) : Bool :=
  match s with
  | [] => false
  | c :: rest => isAlphaA c && rest.all (fun x => isAlphaA x || isDigitA x || isJsSpace x)

/-- Matching one lower-alphanumeric identifier segment, regex [a-z][a-z0-9] star. -/
def segLowerAlnum (w : Str) : Bool :=
  match w with
  | [] => false
  | c :: rest => isLowerA c && rest.all (fun x => isLowerA x || isDigitA x)

/-- Matching against the anchored Java-package regex: dot-separated segments,
each matching [a-z][a-z0-9] star.  A string matches the regex exactly when
every dot-separated chunk matches one segment. -/
def testPackageRegex (s : Str) : Bool := (splitOnChar dotC s).all segLowerAlnum

/-- Matching against the anchored project-name regex [a-z][a-z0-9] star. -/
def testProjectRegex (s : Str) : Bool := segLowerAlnum s

/-- A JavaScript form value: text inputs yield strings, checkboxes booleans. -/
inductive FVal where
  | str (s : Str)
  | bool (b : Bool)
  deriving Repr, DecidableEq

/-- The object built by UIComponents.getFormData: field name to value.  A later
write to the same key wins, as for JavaScript object assignment. -/
abbrev FormData := List (Str × FVal)

/-- Property read formData[key]: the last write to the key, if any. -/
def jsGet (fd : FormData) (key : Str) : Option FVal :=
  (fd.filterMap (fun p => if p.1 = key then some p.2 else none)).getLast?

/-- The string contents of an input value as the DOM exposes it: a checkbox
input carries the DOM default value string, the word on.  Only text inputs are
ever validated in this code base. -/
def fvalStr : FVal → Str
  | .str s => s
  | .bool _ => ("on").toNats

/-- The string held by an optional form value; identifier fields are always
strings when present. -/
def strOf : Option FVal → Str
  | some (.str s) => s
  | _ => []

/-- The blank test of validateGenerationData: absent, falsy, or
whitespace-only values count as blank.  A value of boolean true would make the
source throw on the trim call; the three identifier fields it is applied to
are always strings, so that branch is modelled as non-blank. -/
def blankFD : Option FVal → Bool
  | none => true
  | some (.str s) => (jsTrim s).isEmpty
  | some (.bool b) => !b

/-- The field-name beautifier of the required-field toast: insert a space
before each capital, then lower-case. -/
def decamelName (s : Str) : Str :=
  ((s.map (fun c => if isUpperA c then [spaceC, c] else [c])).flatten).map toLowerJS

/-- A validation error: the field the check concerns and the message shown. -/
structure VError where
  field : Str
  message : Str
  deriving Repr, DecidableEq

/-- Key of the component-name form field. -/
def cnK : Str := ("componentName").toNats

/-- Key of the package-name form field. -/
def pkK : Str := ("packageName").toNats

/-- Key of the project-name form field. -/
def pjK : Str := ("projectName").toNats

/-- Toast message of a failing required identifier in validateGenerationData. -/
def msgRequired (field : Str) : Str := decamelName field ++ (" is required").toNats

/-- Toast message of the component-name pattern check. -/
def msgComponentName : Str :=
  ("Component name must start with a letter and contain only letters, numbers, and spaces").toNats

/-- Toast message of the package-name pattern check in generator.js. -/
def msgPackageName : Str := ("Package name must be a valid Java package").toNats

/-- Error message of the package-name pattern check in components.js. -/
def msgPackageNameUI : Str :=
  ("Package name must be a valid Java package (e.g., com.example.aem.core)").toNats

/-- Toast message of the project-name pattern check. -/
def msgProjectName : Str :=
  ("Project name must be lowercase and contain only letters and numbers").toNats

/-- ComponentGenerator.validateGenerationData from src/js/generator.js, as the
single error whose toast is shown, or none when the data is valid.  The source
shows one toast and returns false at the first failing check: first the blank
checks on the three identifiers in order, then the three pattern checks in
order. -/
def validateGenerationDataE (fd : FormData) : Option VError :=
  if blankFD (jsGet fd cnK) then some ⟨cnK, msgRequired cnK⟩
  else if blankFD (jsGet fd pkK) then some ⟨pkK, msgRequired pkK⟩
  else if blankFD (jsGet fd pjK) then some ⟨pjK, msgRequired pjK⟩
  else if !testDisplayNameRegex (strOf (jsGet fd cnK)) then some ⟨cnK, msgComponentName⟩
  else if !testPackageRegex (strOf (jsGet fd pkK)) then some ⟨pkK, msgPackageName⟩
  else if !testProjectRegex (strOf (jsGet fd pjK)) then some ⟨pjK, msgProjectName⟩
  else none

/-- The boolean result of validateGenerationData. -/
def validateGenerationData (fd : FormData) : Bool := (validateGenerationDataE fd).isNone

/-- One input element of the configuration form built by
UIComponents.createComponentForm: its name attribute, the text of its label,
its current value and whether it carries the required attribute. -/
structure FInput where
  name : Str
  label : Str
  value : FVal
  required : Bool
  deriving Repr, DecidableEq

/-- UIComponents.validateField from src/js/components.js: the error message the
field would display, or none.  The required check runs first and
short-circuits the per-name pattern checks, which run only on non-blank
values. -/
def validateField (i : FInput) : Option Str :=
  let v := fvalStr i.value
  if i.required && (jsTrim v).isEmpty then some (i.label ++ (" is required").toNats)
  else if !(jsTrim v).isEmpty then
    if i.name = cnK then (if testDisplayNameRegex v then none else some msgComponentName)
    else if i.name = pkK then (if testPackageRegex v then none else some msgPackageNameUI)
    else if i.name = pjK then (if testProjectRegex v then none else some msgProjectName)
    else none
  else none

/-- UIComponents.validateForm: every input carrying the required attribute must
validate; the others are not inspected on submit. -/
def validateForm (form : List FInput) : Bool :=
  (form.filter (fun i => i.required)).all (fun i => (validateField i).isNone)

/-- The per-field error displays produced while validateForm runs, in form
order: one entry, paired with the field name, per failing required field. -/
def validateFormErrors (form : List FInput) : List (Str × Str) :=
  (form.filter (fun i => i.required)).filterMap
    (fun i => (validateField i).map (fun m => (i.name, m)))

/-- UIComponents.getFormData: read every input into the form-data object. -/
def getFormData (form : List FInput) : FormData := form.map (fun i => (i.name, i.value))

/-- Code unit of the opening brace. -/
def lbraceC : Nat := 123

/-- Code unit of the closing brace. -/
def rbraceC : Nat := 125

/-- The regex word class backslash-w, [A-Za-z0-9_]. -/
def isWordChar (c : Nat) : Bool := isAlnum c || decide (c = underC)

/-- The placeholder token spelled with double braces around a word. -/
def tokOf (w : Str) : Str := lbraceC :: lbraceC :: (w ++ [rbraceC, rbraceC])

/-- Attempt to match the placeholder regex at the start of the string: double
opening braces, a maximal nonempty run of word characters, double closing
braces.  Returns the key and the remainder after the match.  Because a brace
is not a word character, regex backtracking over the greedy word run can never
find an alternative match, so this maximal-run reading is exact. -/
def tokenAt (s : Str) : Option (Str × Str) :=
  match s with
  | c1 :: c2 :: rest =>
      if c1 = lbraceC ∧ c2 = lbraceC then
        if (rest.takeWhile isWordChar).isEmpty then none
        else
          match rest.drop (rest.takeWhile isWordChar).length with
          | d1 :: d2 :: after =>
              if d1 = rbraceC ∧ d2 = rbraceC then some (rest.takeWhile isWordChar, after)
              else none
          | _ => none
      else none
  | _ => none

/-- Left-to-right scan of the global token replace, with explicit fuel (the
wrapper passes the string length, which bounds the number of steps). -/
def interpGo (vars : Str → Option Str) : Nat → Str → Str
  | 0, s => s
  | n + 1, s =>
      match s with
      | [] => []
      | c :: rest =>
          match tokenAt (c :: rest) with
          | some (key, after) =>
              (match vars key with
               | some v => v
               | none => tokOf key) ++ interpGo vars n after
          | none => c :: interpGo vars n rest

/-- interpolateTemplate from the templates library: global replace of the
placeholder regex, substituting the bound variable and leaving the whole match
in place when the variable is undefined. -/
def interpolateTemplate (template : Str) (vars : Str → Option Str) : Str :=
  interpGo vars template.length template

/-- Prefix test used by the fixed-pattern replace. -/
def leadMatch : Str → Str → Bool
  | [], _ => true
  | _ :: _, [] => false
  | a :: as, b :: bs => decide (a = b) && leadMatch as bs

/-- Left-to-right scan of a global fixed-pattern replace, with explicit fuel. -/
def replaceAllGo (p r : Str) : Nat → Str → Str
  | 0, s => s
  | n + 1, s =>
      match s with
      | [] => []
      | c :: rest =>
          if leadMatch p (c :: rest) then r ++ replaceAllGo p r n ((c :: rest).drop p.length)
          else c :: replaceAllGo p r n rest

/-- Global replace of a fixed nonempty pattern string, as performed by the six
chained regex replaces of interpolateVariables. -/
def replaceAll (p r s : Str) : Str := replaceAllGo p r s.length s

/-- Whether the fixed pattern matches at any position of the string - whether
the global replace has anything to do. -/
def hasMatch (p : Str) : Str → Bool
  | [] => false
  | c :: rest => leadMatch p (c :: rest) || hasMatch p rest

/-- The text a form value yields when used as replacement text or interpolated
into a template literal, by the JavaScript String coercion: an absent property
reads as undefined and stringifies to the word undefined, and a checkbox value
stringifies to the word true or false. -/
def fdText : Option FVal → Str
  | some (.str s) => s
  | some (.bool b) => if b then ("true").toNats else ("false").toNats
  | none => ("undefined").toNats

/-- The six chained global replaces of interpolateVariables in source order,
the innermost applied first, once the component name is known to be a string.
The replacement text is inserted literally; the source also expands dollar
escapes in a replacement string, but no reachable replacement value holds a
dollar sign: the identifier values have passed dollar-free validation
patterns, their casing variants hold word characters and dashes only, and the
coerced fallback words are fixed. -/
def interpolateVariablesCore (content cn pkv pjv : Str) : Str :=
  replaceAll (tokOf (("camelCase").toNats)) (getCamelCaseName cn)
    (replaceAll (tokOf (("pascalCase").toNats)) (getPascalCaseName cn)
      (replaceAll (tokOf (("kebabCase").toNats)) (getKebabCaseName cn)
        (replaceAll (tokOf (("componentName").toNats)) cn
          (replaceAll (tokOf (("projectName").toNats)) pjv
            (replaceAll (tokOf (("componentPackage").toNats)) pkv content)))))

/-- ComponentGenerator.interpolateVariables from src/js/generator.js.  When
formData.componentName is not a string the call throws a TypeError - the
kebab-case helper calls replace on the non-string value - modelled as none.
Otherwise the six global replaces run and the call always returns, whatever
placeholder tokens the content holds. -/
def interpolateVariables (content : Str) (fd : FormData) : Option Str :=
  match jsGet fd cnK with
  | some (FVal.str cn) =>
      some (interpolateVariablesCore content cn (fdText (jsGet fd pkK)) (fdText (jsGet fd pjK)))
  | _ => none

/-- One field descriptor of the component-type catalog, together with the
bound value attached by generateComponentCode (catalog entries carry the empty
string there).  A required key absent from the source object reads as false. -/
structure GenField where
  name : Str
  ftype : Str
  label : Str
  required : Bool
  options : List Str
  default : Option Str
  value : Str
  deriving Repr, DecidableEq

/-- One entry of AEMTemplates.componentTypes. -/
structure ComponentConfig where
  title : Str
  description : Str
  category : Str
  icon : Str
  fields : List GenField
  deriving Repr, DecidableEq

/-- Catalog field constructor; the bound value starts empty. -/
def mkField (name ftype label : Str) (required : Bool) (options : List Str)
    (default : Option Str) : GenField :=
  ⟨name, ftype, label, required, options, default, []⟩

/-- AEMTemplates.componentTypes: the six registered component types with their
field lists, in declaration order. -/
def componentTypes : List (Str × ComponentConfig) :=
  [ (("text-component").toNats,
     { title := ("Text Component").toNats
       description := ("A flexible text component with rich text editing capabilities").toNats
       category := ("Content").toNats
       icon := ("📝").toNats
       fields :=
         [ mkField (("title").toNats) (("text").toNats) (("Title").toNats) false [] none,
           mkField (("text").toNats) (("richtext").toNats) (("Rich Text Content").toNats) true [] none,
           mkField (("alignment").toNats) (("select").toNats) (("Text Alignment").toNats) false
             [("left").toNats, ("center").toNats, ("right").toNats] (some (("left").toNats)) ] }),
    (("image-component").toNats,
     { title := ("Image Component").toNats
       description := ("Responsive image component with multiple format support").toNats
       category := ("Media").toNats
       icon := ("🖼️").toNats
       fields :=
         [ mkField (("image").toNats) (("image").toNats) (("Image").toNats) true [] none,
           mkField (("alt").toNats) (("text").toNats) (("Alt Text").toNats) true [] none,
           mkField (("caption").toNats) (("text").toNats) (("Caption").toNats) false [] none,
           mkField (("linkUrl").toNats) (("pathfield").toNats) (("Link URL").toNats) false [] none ] }),
    (("button-component").toNats,
     { title := ("Button Component").toNats
       description := ("Customizable button with various styles and actions").toNats
       category := ("Interactive").toNats
       icon := ("🔘").toNats
       fields :=
         [ mkField (("text").toNats) (("text").toNats) (("Button Text").toNats) true [] none,
           mkField (("url").toNats) (("pathfield").toNats) (("URL").toNats) false [] none,
           mkField (("style").toNats) (("select").toNats) (("Button Style").toNats) false
             [("primary").toNats, ("secondary").toNats, ("outline").toNats] (some (("primary").toNats)),
           mkField (("size").toNats) (("select").toNats) (("Size").toNats) false
             [("small").toNats, ("medium").toNats, ("large").toNats] (some (("medium").toNats)) ] }),
    (("container-component").toNats,
     { title := ("Container Component").toNats
       description := ("Layout container for organizing other components").toNats
       category := ("Layout").toNats
       icon := ("📦").toNats
       fields :=
         [ mkField (("containerType").toNats) (("select").toNats) (("Container Type").toNats) false
             [("default").toNats, ("fluid").toNats, ("fixed").toNats] (some (("default").toNats)),
           mkField (("backgroundColor").toNats) (("colorfield").toNats) (("Background Color").toNats)
             false [] none,
           mkField (("padding").toNats) (("select").toNats) (("Padding").toNats) false
             [("none").toNats, ("small").toNats, ("medium").toNats, ("large").toNats]
             (some (("medium").toNats)) ] }),
    (("hero-component").toNats,
     { title := ("Hero Component").toNats
       description := ("Eye-catching hero section with image and text overlay").toNats
       category := ("Content").toNats
       icon := ("🦸").toNats
       fields :=
         [ mkField (("backgroundImage").toNats) (("image").toNats) (("Background Image").toNats)
             true [] none,
           mkField (("title").toNats) (("text").toNats) (("Hero Title").toNats) true [] none,
           mkField (("subtitle").toNats) (("text").toNats) (("Subtitle").toNats) false [] none,
           mkField (("ctaText").toNats) (("text").toNats) (("CTA Button Text").toNats) false [] none,
           mkField (("ctaUrl").toNats) (("pathfield").toNats) (("CTA URL").toNats) false [] none ] }),
    (("card-component").toNats,
     { title := ("Card Component").toNats
       description := ("Versatile card component for displaying content blocks").toNats
       category := ("Content").toNats
       icon := ("🃏").toNats
       fields :=
         [ mkField (("image").toNats) (("image").toNats) (("Card Image").toNats) false [] none,
           mkField (("title").toNats) (("text").toNats) (("Card Title").toNats) true [] none,
           mkField (("description").toNats) (("textarea").toNats) (("Description").toNats) false [] none,
           mkField (("link").toNats) (("pathfield").toNats) (("Card Link").toNats) false [] none ] }) ]

/-- Property access AEMTemplates.componentTypes[key]; keys are unique. -/
def lookupComponentType (key : Str) : Option ComponentConfig :=
  (componentTypes.filterMap (fun p => if p.1 = key then some p.2 else none)).head?

/-- The fieldTypeMap object of AEMTemplates.getDialogFieldType. -/
def fieldTypeMap : List (Str × Str) :=
  [ (("text").toNats, ("textfield").toNats),
    (("textarea").toNats, ("textarea").toNats),
    (("richtext").toNats, ("rte").toNats),
    (("select").toNats, ("select").toNats),
    (("checkbox").toNats, ("checkbox").toNats),
    (("image").toNats, ("fileupload").toNats),
    (("pathfield").toNats, ("pathfield").toNats),
    (("colorfield").toNats, ("colorfield").toNats),
    (("number").toNats, ("numberfield").toNats),
    (("email").toNats, ("emailfield").toNats),
    (("url").toNats, ("urlfield").toNats) ]

/-- AEMTemplates.getDialogFieldType: the widget for a field kind, falling back
to the textfield widget for a kind the map does not know. -/
def getDialogFieldType (fieldType : Str) : Str :=
  ((fieldTypeMap.filterMap (fun p => if p.1 = fieldType then some p.2 else none)).head?).getD
    (("textfield").toNats)

/-- The recasing option.charAt(0).toUpperCase() + option.slice(1). -/
def jsCapFirst (w : Str) : Str :=
  match w with
  | [] => []
  | c :: rest => toUpperJS c :: rest

/-- Opening chunk of the HTL template, generateHTL in the templates library. -/
def htlHead (nk np : Str) (config : ComponentConfig) (dateIso : Str) : Str :=
  ("<!--\n============================\n").toNats
  ++ config.title
  ++ (" - HTL Template\nComponent: ").toNats
  ++ nk
  ++ ("\nDescription: ").toNats
  ++ config.description
  ++ ("\nAuthor: AEM Component Generator\nGenerated: ").toNats
  ++ dateIso
  ++ ("\n============================\n-->\n\n<!--/* \n    Component HTL Script for ").toNats
  ++ config.title
  ++ ("\n    \n    This HTL template follows AEM best practices:\n    - Uses data-sly-use for Sling Model integration\n    - Implements proper placeholder for authoring experience\n    - Includes semantic HTML structure\n    - Supports responsive design patterns\n*/-->\n\n<div class=\"cmp-").toNats
  ++ nk
  ++ ("\" \n     data-cmp-is=\"").toNats
  ++ nk
  ++ ("\"\n     data-sly-use.model=\"\x7b\x7bcomponentPackage\x7d\x7d.models.").toNats
  ++ np
  ++ ("Model\">\n    \n    <!--/* Component Placeholder for Authoring */-->\n    <div class=\"cmp-placeholder\" \n         data-emptytext=\"").toNats
  ++ config.title
  ++ ("\" \n         data-sly-test=\"$\x7b(wcmmode.edit || wcmmode.preview) && model.isEmpty\x7d\">\n    </div>\n    \n    <!--/* Main Component Content */-->\n    <div class=\"cmp-").toNats
  ++ nk
  ++ ("__content\" data-sly-test=\"$\x7b!model.isEmpty\x7d\">\n").toNats

/-- Per-type HTL markup of the text component. -/
def htlTextSection (nk : Str) : Str :=
  ("        <!--/* Title Section */-->\n        <div class=\"cmp-").toNats
  ++ nk
  ++ ("__title-wrapper\" data-sly-test=\"$\x7bmodel.title\x7d\">\n            <h2 class=\"cmp-").toNats
  ++ nk
  ++ ("__title\">$\x7bmodel.title\x7d</h2>\n        </div>\n        \n        <!--/* Rich Text Content */-->\n        <div class=\"cmp-").toNats
  ++ nk
  ++ ("__text\" \n             data-sly-test=\"$\x7bmodel.text\x7d\"\n             data-sly-attribute.class=\"cmp-").toNats
  ++ nk
  ++ ("__text--$\x7bmodel.alignment\x7d\">\n            $\x7bmodel.text @ context=\x27html\x27\x7d\n        </div>").toNats

/-- Per-type HTL markup of the image component. -/
def htlImageSection (nk : Str) : Str :=
  ("        <!--/* Image Element */-->\n        <div class=\"cmp-").toNats
  ++ nk
  ++ ("__image-wrapper\" data-sly-test=\"$\x7bmodel.hasImage\x7d\">\n            <img class=\"cmp-").toNats
  ++ nk
  ++ ("__image\"\n                 src=\"$\x7bmodel.imageSrc\x7d\"\n                 alt=\"$\x7bmodel.alt\x7d\"\n                 data-sly-attribute.title=\"$\x7bmodel.caption\x7d\"\n                 loading=\"lazy\" />\n        </div>\n        \n        <!--/* Caption */-->\n        <div class=\"cmp-").toNats
  ++ nk
  ++ ("__caption\" data-sly-test=\"$\x7bmodel.caption\x7d\">\n            $\x7bmodel.caption\x7d\n        </div>").toNats

/-- Per-type HTL markup of the button component. -/
def htlButtonSection (nk : Str) : Str :=
  ("        <!--/* Button Element */-->\n        <div class=\"cmp-").toNats
  ++ nk
  ++ ("__wrapper\">\n            <a class=\"cmp-").toNats
  ++ nk
  ++ ("__button btn btn--$\x7bmodel.style\x7d btn--$\x7bmodel.size\x7d\"\n               href=\"$\x7bmodel.url\x7d\"\n               data-sly-attribute.target=\"$\x7bmodel.isExternalLink ? \x27_blank\x27 : \x27\x27\x7d\"\n               data-sly-attribute.rel=\"$\x7bmodel.isExternalLink ? \x27noopener noreferrer\x27 : \x27\x27\x7d\">\n                $\x7bmodel.text\x7d\n            </a>\n        </div>").toNats

/-- Per-type HTL markup of the container component. -/
def htlContainerSection (nk : Str) : Str :=
  ("        <!--/* Container Content */-->\n        <div class=\"cmp-").toNats
  ++ nk
  ++ ("__inner container--$\x7bmodel.containerType\x7d\"\n             data-sly-attribute.style=\"$\x7bmodel.inlineStyles\x7d\">\n            <!--/* Parsys for child components */-->\n            <div data-sly-resource=\"$\x7bresource @ resourceType=\x27wcm/foundation/components/parsys\x27\x7d\"></div>\n        </div>").toNats

/-- Per-type HTL markup of the hero component. -/
def htlHeroSection (nk : Str) : Str :=
  ("        <!--/* Hero Background */-->\n        <div class=\"cmp-").toNats
  ++ nk
  ++ ("__background\"\n             data-sly-attribute.style=\"background-image: url(\x27$\x7bmodel.backgroundImageSrc\x7d\x27);\">\n            \n            <!--/* Hero Content Overlay */-->\n            <div class=\"cmp-").toNats
  ++ nk
  ++ ("__overlay\">\n                <div class=\"cmp-").toNats
  ++ nk
  ++ ("__content-wrapper\">\n                    \n                    <!--/* Hero Title */-->\n                    <h1 class=\"cmp-").toNats
  ++ nk
  ++ ("__title\" data-sly-test=\"$\x7bmodel.title\x7d\">\n                        $\x7bmodel.title\x7d\n                    </h1>\n                    \n                    <!--/* Hero Subtitle */-->\n                    <p class=\"cmp-").toNats
  ++ nk
  ++ ("__subtitle\" data-sly-test=\"$\x7bmodel.subtitle\x7d\">\n                        $\x7bmodel.subtitle\x7d\n                    </p>\n                    \n                    <!--/* CTA Button */-->\n                    <div class=\"cmp-").toNats
  ++ nk
  ++ ("__cta\" data-sly-test=\"$\x7bmodel.ctaText && model.ctaUrl\x7d\">\n                        <a class=\"cmp-").toNats
  ++ nk
  ++ ("__cta-button btn btn--primary btn--large\"\n                           href=\"$\x7bmodel.ctaUrl\x7d\">\n                            $\x7bmodel.ctaText\x7d\n                        </a>\n                    </div>\n                </div>\n            </div>\n        </div>").toNats

/-- Per-type HTL markup of the card component. -/
def htlCardSection (nk : Str) : Str :=
  ("        <!--/* Card Image */-->\n        <div class=\"cmp-").toNats
  ++ nk
  ++ ("__image-wrapper\" data-sly-test=\"$\x7bmodel.hasImage\x7d\">\n            <img class=\"cmp-").toNats
  ++ nk
  ++ ("__image\"\n                 src=\"$\x7bmodel.imageSrc\x7d\"\n                 alt=\"$\x7bmodel.imageAlt\x7d\"\n                 loading=\"lazy\" />\n        </div>\n        \n        <!--/* Card Content */-->\n        <div class=\"cmp-").toNats
  ++ nk
  ++ ("__body\">\n            <!--/* Card Title */-->\n            <h3 class=\"cmp-").toNats
  ++ nk
  ++ ("__title\" data-sly-test=\"$\x7bmodel.title\x7d\">\n                $\x7bmodel.title\x7d\n            </h3>\n            \n            <!--/* Card Description */-->\n            <p class=\"cmp-").toNats
  ++ nk
  ++ ("__description\" data-sly-test=\"$\x7bmodel.description\x7d\">\n                $\x7bmodel.description\x7d\n            </p>\n            \n            <!--/* Card Link */-->\n            <div class=\"cmp-").toNats
  ++ nk
  ++ ("__link-wrapper\" data-sly-test=\"$\x7bmodel.link\x7d\">\n                <a class=\"cmp-").toNats
  ++ nk
  ++ ("__link\" href=\"$\x7bmodel.link\x7d\">\n                    Read More <span class=\"sr-only\">about $\x7bmodel.title\x7d</span>\n                </a>\n            </div>\n        </div>").toNats

/-- Closing chunk of the HTL template. -/
def htlTail : Str :=
  ("    </div>\n</div>").toNats

/-- Opening chunk of the Sling model, generateSlingModel in the templates library. -/
def smHead (nk np : Str) (config : ComponentConfig) (packageName dateIso : Str) : Str :=
  ("/*\n * ============================\n * ").toNats
  ++ config.title
  ++ (" - Sling Model\n * Component: ").toNats
  ++ nk
  ++ ("\n * Description: ").toNats
  ++ config.description
  ++ ("\n * Author: AEM Component Generator\n * Generated: ").toNats
  ++ dateIso
  ++ ("\n * ============================\n */\n\npackage ").toNats
  ++ packageName
  ++ (".models;\n\nimport com.adobe.cq.export.json.ExporterConstants;\nimport org.apache.sling.api.SlingHttpServletRequest;\nimport org.apache.sling.api.resource.Resource;\nimport org.apache.sling.models.annotations.DefaultInjectionStrategy;\nimport org.apache.sling.models.annotations.Exporter;\nimport org.apache.sling.models.annotations.Model;\nimport org.apache.sling.models.annotations.ValueMapValue;\nimport org.apache.sling.models.annotations.injectorspecific.SlingObject;\nimport org.apache.commons.lang3.StringUtils;\n\nimport javax.annotation.PostConstruct;\nimport javax.inject.Inject;\n\n/**\n * Sling Model for ").toNats
  ++ config.title
  ++ ("\n * \n * This model provides business logic and data processing for the ").toNats
  ++ config.title
  ++ (".\n * It follows AEM best practices for Sling Models:\n * - Uses proper injection strategies\n * - Implements JSON export for SPA integration\n * - Provides validation and transformation methods\n * - Includes proper null checks and defaults\n */\n@Model(\n    adaptables = \x7bSlingHttpServletRequest.class, Resource.class\x7d,\n    adapters = \x7b").toNats
  ++ np
  ++ ("Model.class\x7d,\n    resourceType = ").toNats
  ++ np
  ++ ("Model.RESOURCE_TYPE,\n    defaultInjectionStrategy = DefaultInjectionStrategy.OPTIONAL\n)\n@Exporter(\n    name = ExporterConstants.SLING_MODEL_EXPORTER_NAME,\n    extensions = ExporterConstants.SLING_MODEL_EXTENSION\n)\npublic class ").toNats
  ++ np
  ++ ("Model \x7b\n\n    /**\n     * Resource type constant for this component\n     */\n    public static final String RESOURCE_TYPE = \"\x7b\x7bprojectName\x7d\x7d/components/").toNats
  ++ nk
  ++ ("\";\n\n    @SlingObject\n    private Resource resource;\n\n    @SlingObject\n    private SlingHttpServletRequest request;\n").toNats

/-- Per-field ValueMapValue declaration of the Sling model. -/
def smFieldDecl (fc : Str) : Str :=
  ("\n    @ValueMapValue\n    private String ").toNats
  ++ fc
  ++ (";\n").toNats

/-- Chunk of the Sling model preceding the isEmpty body. -/
def smIsEmptyHead : Str :=
  ("\n    /**\n     * Post-construct method for additional initialization\n     */\n    @PostConstruct\n    protected void init() \x7b\n        // Additional initialization logic can be added here\n    \x7d\n\n    /**\n     * Checks if the component has sufficient content to display\n     * @return true if the component should be rendered, false otherwise\n     */\n    public boolean isEmpty() \x7b").toNats

/-- isEmpty body of the text component. -/
def smIsEmptyText : Str :=
  ("\n        return StringUtils.isBlank(text);").toNats

/-- isEmpty body of the image component. -/
def smIsEmptyImage : Str :=
  ("\n        return StringUtils.isBlank(image);").toNats

/-- isEmpty body of the button component. -/
def smIsEmptyButton : Str :=
  ("\n        return StringUtils.isBlank(text);").toNats

/-- isEmpty body of the default switch branch. -/
def smIsEmptyDefault : Str :=
  ("\n        return false; // Override this method based on your component\x27s requirements").toNats

/-- Chunk closing the isEmpty method. -/
def smIsEmptyClose : Str :=
  ("\n    \x7d\n").toNats

/-- Per-field getter javadoc and signature; ll is the lower-cased label and mn the accessor name. -/
def smGetterHead (mn ll : Str) : Str :=
  ("\n    /**\n     * Gets the ").toNats
  ++ ll
  ++ ("\n     * @return the ").toNats
  ++ ll
  ++ (" value\n     */\n    public String ").toNats
  ++ mn
  ++ ("() \x7b").toNats

/-- Getter body of a richtext field. -/
def smGetterRichtext (fc : Str) : Str :=
  ("\n        return StringUtils.isNotBlank(").toNats
  ++ fc
  ++ (") ? ").toNats
  ++ fc
  ++ (" : null;").toNats

/-- Getter body of an image field. -/
def smGetterImage (fc : Str) : Str :=
  ("\n        return StringUtils.isNotBlank(").toNats
  ++ fc
  ++ (") ? ").toNats
  ++ fc
  ++ (" : null;").toNats

/-- Getter body of a select field with its default value. -/
def smGetterSelect (fc dv : Str) : Str :=
  ("\n        return StringUtils.isNotBlank(").toNats
  ++ fc
  ++ (") ? ").toNats
  ++ fc
  ++ (" : \"").toNats
  ++ dv
  ++ ("\";").toNats

/-- Getter body of the default field switch branch. -/
def smGetterDefault (fc : Str) : Str :=
  ("\n        return StringUtils.isNotBlank(").toNats
  ++ fc
  ++ (") ? ").toNats
  ++ fc
  ++ (" : null;").toNats

/-- Chunk closing one getter. -/
def smGetterClose : Str :=
  ("\n    \x7d").toNats

/-- Type-specific helper methods of the image component. -/
def smHelperImage : Str :=
  ("\n\n    /**\n     * Checks if the component has a valid image\n     * @return true if image is present, false otherwise\n     */\n    public boolean hasImage() \x7b\n        return StringUtils.isNotBlank(getImage());\n    \x7d\n\n    /**\n     * Gets the processed image source URL\n     * @return the image source URL with proper sizing\n     */\n    public String getImageSrc() \x7b\n        String imagePath = getImage();\n        if (StringUtils.isBlank(imagePath)) \x7b\n            return null;\n        \x7d\n        // Add image transformation logic here if needed\n        return imagePath;\n    \x7d").toNats

/-- Type-specific helper methods of the button component. -/
def smHelperButton : Str :=
  ("\n\n    /**\n     * Checks if the URL is an external link\n     * @return true if URL is external, false otherwise\n     */\n    public boolean isExternalLink() \x7b\n        String url = getUrl();\n        return StringUtils.isNotBlank(url) && \n               (url.startsWith(\"http://\") || url.startsWith(\"https://\"));\n    \x7d").toNats

/-- Type-specific helper methods of the container component. -/
def smHelperContainer : Str :=
  ("\n\n    /**\n     * Gets inline styles for the container\n     * @return CSS style string\n     */\n    public String getInlineStyles() \x7b\n        StringBuilder styles = new StringBuilder();\n        \n        if (StringUtils.isNotBlank(getBackgroundColor())) \x7b\n            styles.append(\"background-color: \").append(getBackgroundColor()).append(\";\");\n        \x7d\n        \n        return styles.length() > 0 ? styles.toString() : null;\n    \x7d").toNats

/-- Type-specific helper methods of the hero component. -/
def smHelperHero : Str :=
  ("\n\n    /**\n     * Gets the processed background image source URL\n     * @return the background image source URL\n     */\n    public String getBackgroundImageSrc() \x7b\n        String imagePath = getBackgroundImage();\n        if (StringUtils.isBlank(imagePath)) \x7b\n            return null;\n        \x7d\n        // Add image transformation logic here if needed\n        return imagePath;\n    \x7d").toNats

/-- Chunk closing the Sling model class. -/
def smClose : Str :=
  ("\n\x7d").toNats

/-- Opening chunk of the dialog configuration, generateDialog in the templates library. -/
def dlgHead (nk : Str) (config : ComponentConfig) (dateIso : Str) : Str :=
  ("<?xml version=\"1.0\" encoding=\"UTF-8\"?>\n<!--\n============================\n").toNats
  ++ config.title
  ++ (" - Dialog Configuration\nComponent: ").toNats
  ++ nk
  ++ ("\nDescription: ").toNats
  ++ config.description
  ++ ("\nAuthor: AEM Component Generator\nGenerated: ").toNats
  ++ dateIso
  ++ ("\n============================\n-->\n\n<!--\nThis dialog configuration defines the authoring interface for the ").toNats
  ++ config.title
  ++ (".\nIt follows AEM Touch UI dialog standards and provides a user-friendly\ninterface for content authors to configure the component.\n-->\n\n<jcr:root xmlns:sling=\"http://sling.apache.org/jcr/sling/1.0\"\n          xmlns:granite=\"http://www.adobe.com/jcr/granite/1.0\"\n          xmlns:cq=\"http://www.day.com/jcr/cq/1.0\"\n          xmlns:jcr=\"http://www.jcp.org/jcr/1.0\"\n          xmlns:nt=\"http://www.jcp.org/jcr/nt/1.0\"\n          jcr:primaryType=\"nt:unstructured\"\n          jcr:title=\"").toNats
  ++ config.title
  ++ ("\"\n          sling:resourceType=\"cq/gui/components/authoring/dialog\"\n          extraClientlibs=\"[\x7b\x7bprojectName\x7d\x7d.authoring]\"\n          helpPath=\"https://docs.adobe.com/content/help/en/experience-manager-core-components/using/components/\"\n          trackingFeature=\"aem:sites:components:").toNats
  ++ nk
  ++ ("\">\n          \n    <content\n        jcr:primaryType=\"nt:unstructured\"\n        sling:resourceType=\"granite/ui/components/coral/foundation/container\">\n        \n        <items jcr:primaryType=\"nt:unstructured\">\n            \n            <!-- Main Tab -->\n            <tabs\n                jcr:primaryType=\"nt:unstructured\"\n                sling:resourceType=\"granite/ui/components/coral/foundation/tabs\"\n                maximized=\"\x7bBoolean\x7dtrue\">\n                \n                <items jcr:primaryType=\"nt:unstructured\">\n                    \n                    <!-- Properties Tab -->\n                    <properties\n                        jcr:primaryType=\"nt:unstructured\"\n                        jcr:title=\"Properties\"\n").toNats
  ++ ("                        sling:resourceType=\"granite/ui/components/coral/foundation/container\"\n                        margin=\"\x7bBoolean\x7dtrue\">\n                        \n                        <items jcr:primaryType=\"nt:unstructured\">\n").toNats

/-- Per-field node opening of the dialog. -/
def dlgFieldHead (f : GenField) (fc : Str) : Str :=
  ("\n                            <!-- ").toNats
  ++ f.label
  ++ (" Field -->\n                            <").toNats
  ++ fc
  ++ ("\n                                jcr:primaryType=\"nt:unstructured\"\n                                sling:resourceType=\"granite/ui/components/coral/foundation/form/").toNats
  ++ (getDialogFieldType f.ftype)
  ++ ("\"\n                                fieldLabel=\"").toNats
  ++ f.label
  ++ ("\"\n                                name=\"./").toNats
  ++ fc
  ++ ("\"").toNats

/-- The required attribute chunk of the dialog. -/
def dlgRequired : Str :=
  ("\n                                required=\"\x7bBoolean\x7dtrue\"").toNats

/-- Dialog attributes of a richtext field. -/
def dlgRichtext (fc : Str) : Str :=
  ("\n                                useFixedInlineToolbar=\"\x7bBoolean\x7dtrue\">\n                                <rtePlugins jcr:primaryType=\"nt:unstructured\">\n                                    <format\n                                        jcr:primaryType=\"nt:unstructured\"\n                                        features=\"[bold,italic,underline]\"/>\n                                    <justify\n                                        jcr:primaryType=\"nt:unstructured\"\n                                        features=\"[justifyleft,justifycenter,justifyright]\"/>\n                                    <lists\n                                        jcr:primaryType=\"nt:unstructured\"\n                                        features=\"[unordered,ordered]\"/>\n                                    <links\n").toNats
  ++ ("                                        jcr:primaryType=\"nt:unstructured\"\n                                        features=\"[modifylink,unlink]\"/>\n                                </rtePlugins>\n                            </").toNats
  ++ fc
  ++ (">").toNats

/-- Dialog chunk opening the select options. -/
def dlgSelectOpen : Str :=
  (">\n                                <items jcr:primaryType=\"nt:unstructured\">").toNats

/-- One select option node of the dialog. -/
def dlgOption (o : Str) : Str :=
  ("\n                                    <").toNats
  ++ o
  ++ ("\n                                        jcr:primaryType=\"nt:unstructured\"\n                                        text=\"").toNats
  ++ (jsCapFirst o)
  ++ ("\"\n                                        value=\"").toNats
  ++ o
  ++ ("\"/>").toNats

/-- Dialog chunk closing the select options. -/
def dlgSelectClose (fc : Str) : Str :=
  ("\n                                </items>\n                            </").toNats
  ++ fc
  ++ (">").toNats

/-- Dialog attributes of an image field. -/
def dlgImage : Str :=
  ("\n                                allowUpload=\"\x7bBoolean\x7dtrue\"\n                                autoStart=\"\x7bBoolean\x7dfalse\"\n                                class=\"cq-droptarget\"\n                                fileNameParameter=\"./fileName\"\n                                fileReferenceParameter=\"./fileReference\"\n                                mimeTypes=\"[image/gif,image/jpeg,image/png,image/webp,image/tiff,image/svg+xml]\"\n                                multiple=\"\x7bBoolean\x7dfalse\"/>").toNats

/-- Dialog attributes of a pathfield field. -/
def dlgPathfield : Str :=
  ("\n                                rootPath=\"/content\"/>").toNats

/-- Dialog attributes of a colorfield field. -/
def dlgColorfield : Str :=
  ("\n                                variant=\"swatch\"/>").toNats

/-- Dialog attributes of a textarea field. -/
def dlgTextarea : Str :=
  ("\n                                rows=\"\x7bLong\x7d4\"/>").toNats

/-- Dialog self-closing chunk of the default field branch. -/
def dlgDefaultEnd : Str :=
  ("/>").toNats

/-- Closing chunk of the dialog, with the fixed accessibility tab. -/
def dlgTail : Str :=
  ("\n                        </items>\n                    </properties>\n                    \n                    <!-- Accessibility Tab -->\n                    <accessibility\n                        jcr:primaryType=\"nt:unstructured\"\n                        jcr:title=\"Accessibility\"\n                        sling:resourceType=\"granite/ui/components/coral/foundation/container\"\n                        margin=\"\x7bBoolean\x7dtrue\">\n                        \n                        <items jcr:primaryType=\"nt:unstructured\">\n                            \n                            <!-- Accessibility ID -->\n                            <accessibilityId\n                                jcr:primaryType=\"nt:unstructured\"\n").toNats
  ++ ("                                sling:resourceType=\"granite/ui/components/coral/foundation/form/textfield\"\n                                fieldLabel=\"Accessibility ID\"\n                                fieldDescription=\"Unique identifier for accessibility purposes\"\n                                name=\"./id\"/>\n                            \n                            <!-- ARIA Label -->\n                            <ariaLabel\n                                jcr:primaryType=\"nt:unstructured\"\n                                sling:resourceType=\"granite/ui/components/coral/foundation/form/textfield\"\n                                fieldLabel=\"ARIA Label\"\n                                fieldDescription=\"Accessibility label for screen readers\"\n                                name=\"./ariaLabel\"/>\n").toNats
  ++ ("                                \n                        </items>\n                    </accessibility>\n                    \n                </items>\n            </tabs>\n        </items>\n    </content>\n</jcr:root>").toNats

/-- Opening chunk of the stylesheet, generateCSS in the templates library. -/
def cssHead (nk : Str) (config : ComponentConfig) (dateIso : Str) : Str :=
  ("/*\n============================\n").toNats
  ++ config.title
  ++ (" - Component Styles\nComponent: ").toNats
  ++ nk
  ++ ("\nDescription: ").toNats
  ++ config.description
  ++ ("\nAuthor: AEM Component Generator\nGenerated: ").toNats
  ++ dateIso
  ++ ("\n============================\n*/\n\n/*\nThis SCSS file contains component-specific styles for the ").toNats
  ++ config.title
  ++ (".\nIt follows BEM naming convention and AEM Core Components patterns.\n\nStructure:\n- Block: .cmp-").toNats
  ++ nk
  ++ ("\n- Elements: .cmp-").toNats
  ++ nk
  ++ ("__element\n- Modifiers: .cmp-").toNats
  ++ nk
  ++ ("--modifier\n\nThe styles are responsive and follow mobile-first approach.\n*/\n\n/* ========================\n   Component Variables\n   ======================== */\n\n// Component-specific variables\n$cmp-").toNats
  ++ nk
  ++ ("-spacing: 1rem;\n$cmp-").toNats
  ++ nk
  ++ ("-border-radius: 0.375rem;\n$cmp-").toNats
  ++ nk
  ++ ("-transition: all 0.2s ease;\n\n/* ========================\n   Component Base Styles\n   ======================== */\n\n.cmp-").toNats
  ++ nk
  ++ (" \x7b\n    position: relative;\n    display: block;\n    margin-bottom: $cmp-").toNats
  ++ nk
  ++ ("-spacing;\n    \n    // Ensure component is accessible\n    &:focus-within \x7b\n        outline: 2px solid var(--focus-color, #3B82F6);\n        outline-offset: 2px;\n    \x7d\n\x7d\n\n/* ========================\n   Placeholder Styles (Authoring)\n   ======================== */\n\n.cmp-placeholder \x7b\n    display: flex;\n    align-items: center;\n    justify-content: center;\n    min-height: 100px;\n    border: 2px dashed #CBD5E1;\n    border-radius: $cmp-").toNats
  ++ nk
  ++ ("-border-radius;\n    background-color: #F8FAFC;\n    color: #64748B;\n    font-size: 0.875rem;\n    font-weight: 500;\n    text-align: center;\n    padding: $cmp-").toNats
  ++ nk
  ++ ("-spacing;\n    \n    &::before \x7b\n        content: attr(data-emptytext);\n    \x7d\n    \n    // Hide placeholder in publish mode\n    body.wcm-publish & \x7b\n        display: none;\n    \x7d\n\x7d\n\n/* ========================\n   Component Content Styles\n   ======================== */\n\n.cmp-").toNats
  ++ nk
  ++ ("__content \x7b\n    width: 100%;\n\x7d\n").toNats

/-- Type-specific styles of the text component. -/
def cssTextSection (nk : Str) : Str :=
  ("\n/* Text Component Specific Styles */\n\n.cmp-").toNats
  ++ nk
  ++ ("__title-wrapper \x7b\n    margin-bottom: calc($cmp-").toNats
  ++ nk
  ++ ("-spacing / 2);\n\x7d\n\n.cmp-").toNats
  ++ nk
  ++ ("__title \x7b\n    font-size: 1.5rem;\n    font-weight: 600;\n    line-height: 1.3;\n    color: var(--text-primary, #1E293B);\n    margin: 0;\n\x7d\n\n.cmp-").toNats
  ++ nk
  ++ ("__text \x7b\n    line-height: 1.6;\n    color: var(--text-secondary, #475569);\n    \n    // Text alignment modifiers\n    &--left \x7b\n        text-align: left;\n    \x7d\n    \n    &--center \x7b\n        text-align: center;\n    \x7d\n    \n    &--right \x7b\n        text-align: right;\n    \x7d\n    \n    // Rich text formatting\n    p \x7b\n        margin-bottom: 1rem;\n        \n        &:last-child \x7b\n            margin-bottom: 0;\n        \x7d\n    \x7d\n    \n    ul, ol \x7b\n        margin-bottom: 1rem;\n        padding-left: 1.5rem;\n    \x7d\n    \n    li \x7b\n        margin-bottom: 0.25rem;\n    \x7d\n    \n    strong \x7b\n        font-weight: 600;\n    \x7d\n    \n    em \x7b\n        font-style: italic;\n    \x7d\n    \n    a \x7b\n        color: var(--link-color, #3B82F6);\n        text-decoration: underline;\n        transition: $cmp-").toNats
  ++ nk
  ++ ("-transition;\n        \n        &:hover \x7b\n            color: var(--link-hover-color, #2563EB);\n        \x7d\n    \x7d\n\x7d").toNats

/-- Type-specific styles of the image component. -/
def cssImageSection (nk : Str) : Str :=
  ("\n/* Image Component Specific Styles */\n\n.cmp-").toNats
  ++ nk
  ++ ("__image-wrapper \x7b\n    position: relative;\n    overflow: hidden;\n    border-radius: $cmp-").toNats
  ++ nk
  ++ ("-border-radius;\n    background-color: #F1F5F9;\n\x7d\n\n.cmp-").toNats
  ++ nk
  ++ ("__image \x7b\n    width: 100%;\n    height: auto;\n    display: block;\n    transition: $cmp-").toNats
  ++ nk
  ++ ("-transition;\n    \n    &:hover \x7b\n        transform: scale(1.02);\n    \x7d\n\x7d\n\n.cmp-").toNats
  ++ nk
  ++ ("__caption \x7b\n    margin-top: calc($cmp-").toNats
  ++ nk
  ++ ("-spacing / 2);\n    font-size: 0.875rem;\n    color: var(--text-muted, #64748B);\n    text-align: center;\n    font-style: italic;\n\x7d").toNats

/-- Type-specific styles of the button component. -/
def cssButtonSection (nk : Str) : Str :=
  ("\n/* Button Component Specific Styles */\n\n.cmp-").toNats
  ++ nk
  ++ ("__wrapper \x7b\n    display: inline-block;\n\x7d\n\n.cmp-").toNats
  ++ nk
  ++ ("__button \x7b\n    display: inline-flex;\n    align-items: center;\n    justify-content: center;\n    padding: 0.75rem 1.5rem;\n    border: none;\n    border-radius: $cmp-").toNats
  ++ nk
  ++ ("-border-radius;\n    font-size: 1rem;\n    font-weight: 500;\n    text-decoration: none;\n    text-align: center;\n    cursor: pointer;\n    transition: $cmp-").toNats
  ++ nk
  ++ ("-transition;\n    min-width: 120px;\n    \n    &:focus \x7b\n        outline: 2px solid var(--focus-color, #3B82F6);\n        outline-offset: 2px;\n    \x7d\n    \n    &:disabled \x7b\n        opacity: 0.6;\n        cursor: not-allowed;\n        pointer-events: none;\n    \x7d\n    \n    // Button style variants\n    &.btn--primary \x7b\n        background-color: var(--button-primary-bg, #3B82F6);\n        color: var(--button-primary-text, #FFFFFF);\n        \n        &:hover \x7b\n            background-color: var(--button-primary-hover, #2563EB);\n            transform: translateY(-1px);\n        \x7d\n    \x7d\n    \n    &.btn--secondary \x7b\n        background-color: var(--button-secondary-bg, #E2E8F0);\n        color: var(--button-secondary-text, #475569);\n        \n        &:hover \x7b\n").toNats
  ++ ("            background-color: var(--button-secondary-hover, #CBD5E1);\n            transform: translateY(-1px);\n        \x7d\n    \x7d\n    \n    &.btn--outline \x7b\n        background-color: transparent;\n        color: var(--button-outline-text, #3B82F6);\n        border: 2px solid var(--button-outline-border, #3B82F6);\n        \n        &:hover \x7b\n            background-color: var(--button-outline-hover-bg, #3B82F6);\n            color: var(--button-outline-hover-text, #FFFFFF);\n        \x7d\n    \x7d\n    \n    // Button size variants\n    &.btn--small \x7b\n        padding: 0.5rem 1rem;\n        font-size: 0.875rem;\n        min-width: 80px;\n    \x7d\n    \n    &.btn--medium \x7b\n        padding: 0.75rem 1.5rem;\n        font-size: 1rem;\n        min-width: 120px;\n    \x7d\n    \n    &.btn--large \x7b\n        padding: 1rem 2rem;\n").toNats
  ++ ("        font-size: 1.125rem;\n        min-width: 160px;\n    \x7d\n\x7d").toNats

/-- Type-specific styles of the container component. -/
def cssContainerSection (nk : Str) : Str :=
  ("\n/* Container Component Specific Styles */\n\n.cmp-").toNats
  ++ nk
  ++ ("__inner \x7b\n    width: 100%;\n    \n    // Container type variants\n    &.container--default \x7b\n        max-width: 1200px;\n        margin: 0 auto;\n        padding: 0 1rem;\n    \x7d\n    \n    &.container--fluid \x7b\n        width: 100%;\n        padding: 0 1rem;\n    \x7d\n    \n    &.container--fixed \x7b\n        width: 100%;\n        max-width: 960px;\n        margin: 0 auto;\n        padding: 0 1rem;\n    \x7d\n    \n    // Padding variants\n    &[class*=\"padding--none\"] \x7b\n        padding-top: 0;\n        padding-bottom: 0;\n    \x7d\n    \n    &[class*=\"padding--small\"] \x7b\n        padding-top: 1rem;\n        padding-bottom: 1rem;\n    \x7d\n    \n    &[class*=\"padding--medium\"] \x7b\n        padding-top: 2rem;\n        padding-bottom: 2rem;\n    \x7d\n    \n    &[class*=\"padding--large\"] \x7b\n        padding-top: 4rem;\n").toNats
  ++ ("        padding-bottom: 4rem;\n    \x7d\n\x7d").toNats

/-- Type-specific styles of the hero component. -/
def cssHeroSection (nk : Str) : Str :=
  ("\n/* Hero Component Specific Styles */\n\n.cmp-").toNats
  ++ nk
  ++ ("__background \x7b\n    position: relative;\n    min-height: 60vh;\n    background-size: cover;\n    background-position: center;\n    background-repeat: no-repeat;\n    display: flex;\n    align-items: center;\n    justify-content: center;\n\x7d\n\n.cmp-").toNats
  ++ nk
  ++ ("__overlay \x7b\n    position: absolute;\n    top: 0;\n    left: 0;\n    right: 0;\n    bottom: 0;\n    background: linear-gradient(rgba(0, 0, 0, 0.4), rgba(0, 0, 0, 0.6));\n    display: flex;\n    align-items: center;\n    justify-content: center;\n    padding: 2rem;\n\x7d\n\n.cmp-").toNats
  ++ nk
  ++ ("__content-wrapper \x7b\n    text-align: center;\n    color: white;\n    max-width: 800px;\n\x7d\n\n.cmp-").toNats
  ++ nk
  ++ ("__title \x7b\n    font-size: clamp(2rem, 5vw, 3.5rem);\n    font-weight: 700;\n    line-height: 1.2;\n    margin-bottom: 1rem;\n    text-shadow: 0 2px 4px rgba(0, 0, 0, 0.5);\n\x7d\n\n.cmp-").toNats
  ++ nk
  ++ ("__subtitle \x7b\n    font-size: clamp(1rem, 3vw, 1.25rem);\n    line-height: 1.6;\n    margin-bottom: 2rem;\n    opacity: 0.9;\n\x7d\n\n.cmp-").toNats
  ++ nk
  ++ ("__cta \x7b\n    margin-top: 2rem;\n\x7d\n\n.cmp-").toNats
  ++ nk
  ++ ("__cta-button \x7b\n    display: inline-flex;\n    align-items: center;\n    justify-content: center;\n    padding: 1rem 2rem;\n    background-color: var(--cta-bg, #3B82F6);\n    color: white;\n    text-decoration: none;\n    border-radius: $cmp-").toNats
  ++ nk
  ++ ("-border-radius;\n    font-weight: 600;\n    font-size: 1.125rem;\n    transition: $cmp-").toNats
  ++ nk
  ++ ("-transition;\n    box-shadow: 0 4px 6px rgba(0, 0, 0, 0.1);\n    \n    &:hover \x7b\n        background-color: var(--cta-hover, #2563EB);\n        transform: translateY(-2px);\n        box-shadow: 0 6px 12px rgba(0, 0, 0, 0.15);\n    \x7d\n\x7d").toNats

/-- Type-specific styles of the card component. -/
def cssCardSection (nk : Str) : Str :=
  ("\n/* Card Component Specific Styles */\n\n.cmp-").toNats
  ++ nk
  ++ (" \x7b\n    background-color: white;\n    border-radius: $cmp-").toNats
  ++ nk
  ++ ("-border-radius;\n    box-shadow: 0 1px 3px rgba(0, 0, 0, 0.1);\n    overflow: hidden;\n    transition: $cmp-").toNats
  ++ nk
  ++ ("-transition;\n    height: 100%;\n    display: flex;\n    flex-direction: column;\n    \n    &:hover \x7b\n        transform: translateY(-4px);\n        box-shadow: 0 8px 25px rgba(0, 0, 0, 0.15);\n    \x7d\n\x7d\n\n.cmp-").toNats
  ++ nk
  ++ ("__image-wrapper \x7b\n    overflow: hidden;\n    flex-shrink: 0;\n\x7d\n\n.cmp-").toNats
  ++ nk
  ++ ("__image \x7b\n    width: 100%;\n    height: 200px;\n    object-fit: cover;\n    transition: $cmp-").toNats
  ++ nk
  ++ ("-transition;\n    \n    .cmp-").toNats
  ++ nk
  ++ (":hover & \x7b\n        transform: scale(1.05);\n    \x7d\n\x7d\n\n.cmp-").toNats
  ++ nk
  ++ ("__body \x7b\n    padding: 1.5rem;\n    flex: 1;\n    display: flex;\n    flex-direction: column;\n\x7d\n\n.cmp-").toNats
  ++ nk
  ++ ("__title \x7b\n    font-size: 1.25rem;\n    font-weight: 600;\n    line-height: 1.3;\n    color: var(--text-primary, #1E293B);\n    margin-bottom: 0.75rem;\n\x7d\n\n.cmp-").toNats
  ++ nk
  ++ ("__description \x7b\n    color: var(--text-secondary, #64748B);\n    line-height: 1.6;\n    margin-bottom: 1rem;\n    flex: 1;\n\x7d\n\n.cmp-").toNats
  ++ nk
  ++ ("__link-wrapper \x7b\n    margin-top: auto;\n\x7d\n\n.cmp-").toNats
  ++ nk
  ++ ("__link \x7b\n    color: var(--link-color, #3B82F6);\n    text-decoration: none;\n    font-weight: 500;\n    display: inline-flex;\n    align-items: center;\n    gap: 0.25rem;\n    \n    &:hover \x7b\n        color: var(--link-hover-color, #2563EB);\n        text-decoration: underline;\n    \x7d\n    \n    &::after \x7b\n        content: \x27→\x27;\n        transition: $cmp-").toNats
  ++ nk
  ++ ("-transition;\n    \x7d\n    \n    &:hover::after \x7b\n        transform: translateX(2px);\n    \x7d\n\x7d").toNats

/-- Responsive, print, high-contrast and reduced-motion tail of the stylesheet. -/
def cssTail (nk : Str) : Str :=
  ("\n\n/* ========================\n   Responsive Styles\n   ======================== */\n\n// Tablet styles\n@media (max-width: 768px) \x7b\n    .cmp-").toNats
  ++ nk
  ++ (" \x7b\n        margin-bottom: calc($cmp-").toNats
  ++ nk
  ++ ("-spacing * 0.75);\n    \x7d\n\x7d\n\n// Mobile styles\n@media (max-width: 480px) \x7b\n    .cmp-").toNats
  ++ nk
  ++ (" \x7b\n        margin-bottom: calc($cmp-").toNats
  ++ nk
  ++ ("-spacing * 0.5);\n    \x7d\n\x7d\n\n/* ========================\n   Print Styles\n   ======================== */\n\n@media print \x7b\n    .cmp-").toNats
  ++ nk
  ++ (" \x7b\n        break-inside: avoid;\n        margin-bottom: 1rem;\n    \x7d\n    \n    .cmp-placeholder \x7b\n        display: none;\n    \x7d\n\x7d\n\n/* ========================\n   High Contrast Mode\n   ======================== */\n\n@media (prefers-contrast: high) \x7b\n    .cmp-").toNats
  ++ nk
  ++ (" \x7b\n        border: 1px solid;\n    \x7d\n\x7d\n\n/* ========================\n   Reduced Motion\n   ======================== */\n\n@media (prefers-reduced-motion: reduce) \x7b\n    .cmp-").toNats
  ++ nk
  ++ (" *,\n    .cmp-").toNats
  ++ nk
  ++ (" *::before,\n    .cmp-").toNats
  ++ nk
  ++ (" *::after \x7b\n        animation-duration: 0.01ms !important;\n        animation-iteration-count: 1 !important;\n        transition-duration: 0.01ms !important;\n    \x7d\n\x7d").toNats

/-- Opening chunk of the README, generateReadme in the templates library, up to the table header. -/
def readmeHead (nk np : Str) (config : ComponentConfig) (dateLoc : Str) : Str :=
  ("# ").toNats
  ++ config.title
  ++ ("\n\n**Component Name:** ").toNats
  ++ nk
  ++ ("  \n**Category:** ").toNats
  ++ config.category
  ++ ("  \n**Generated:** ").toNats
  ++ dateLoc
  ++ ("\n\n## Description\n\n").toNats
  ++ config.description
  ++ ("\n\n## Files Generated\n\nThis component includes the following files:\n\n- `").toNats
  ++ nk
  ++ (".html` - HTL template for rendering\n- `").toNats
  ++ np
  ++ ("Model.java` - Sling Model for business logic\n- `_cq_dialog/.content.xml` - Touch UI dialog configuration\n- `").toNats
  ++ nk
  ++ (".scss` - Component-specific styles\n- `README.md` - This documentation file\n\n## Properties\n\nThe component supports the following properties:\n\n| Property | Type | Required | Description |\n|----------|------|----------|-------------|").toNats

/-- One property-table row of the README. -/
def readmeRow (f : GenField) : Str :=
  ("\n| ").toNats
  ++ f.name
  ++ (" | ").toNats
  ++ f.ftype
  ++ (" | ").toNats
  ++ (if f.required then ("Yes").toNats else ("No").toNats)
  ++ (" | ").toNats
  ++ f.label
  ++ (" |").toNats

/-- Closing chunk of the README after the property table. -/
def readmeTail (nk np : Str) : Str :=
  ("\n\n## Usage\n\n### Basic Usage\n\n1. Add the component to your page template or parsys\n2. Configure the properties through the dialog\n3. The component will render based on the configured values\n\n### Code Example\n\n```html\n<div data-sly-resource=\"$\x7bresource @ resourceType=\x27your-project/components/").toNats
  ++ nk
  ++ ("\x27\x7d\"></div>\n```\n\n## Customization\n\n### Styling\n\nThe component uses CSS custom properties for easy theming:\n\n```css\n:root \x7b\n    --text-primary: #1E293B;\n    --text-secondary: #475569;\n    --link-color: #3B82F6;\n    --focus-color: #3B82F6;\n\x7d\n```\n\n### Extending the Sling Model\n\nTo add custom business logic, extend the generated Sling Model:\n\n```java\n@Model(\n    adaptables = \x7bSlingHttpServletRequest.class, Resource.class\x7d,\n    adapters = \x7bExtended").toNats
  ++ np
  ++ ("Model.class\x7d,\n    resourceType = \"your-project/components/").toNats
  ++ nk
  ++ ("\",\n    defaultInjectionStrategy = DefaultInjectionStrategy.OPTIONAL\n)\npublic class Extended").toNats
  ++ np
  ++ ("Model extends ").toNats
  ++ np
  ++ ("Model \x7b\n    // Add your custom methods here\n\x7d\n```\n\n## Accessibility\n\nThis component follows WCAG 2.1 guidelines and includes:\n\n- Proper semantic HTML structure\n- ARIA labels and descriptions\n- Keyboard navigation support\n- High contrast mode compatibility\n- Screen reader friendly markup\n\n## Browser Support\n\n- Chrome 90+\n- Firefox 88+\n- Safari 14+\n- Edge 90+\n\n## Performance\n\n- Lazy loading for images\n- Optimized CSS delivery\n- Minimal JavaScript footprint\n- Responsive image handling\n\n## Testing\n\n### Unit Tests\n\nCreate unit tests for the Sling Model:\n\n```java\n@ExtendWith(AemContextExtension.class)\nclass ").toNats
  ++ np
  ++ ("ModelTest \x7b\n    \n    @Test\n    void testModelInitialization() \x7b\n        // Test your model logic here\n    \x7d\n\x7d\n```\n\n### Integration Tests\n\nTest the component\x27s HTML output and dialog functionality in your integration test suite.\n\n## Support\n\nFor issues or questions regarding this component:\n\n1. Check the AEM documentation\n2. Review the generated code comments\n3. Consult your development team\n4. Create a support ticket if needed\n\n---\n\n*Generated by AEM Component Generator*").toNats

/-- The per-type switch of generateHTL; the source switch has no default
branch, so an unmatched type contributes nothing. -/
def htlFieldSection (componentType nk : Str) : Str :=
  if componentType = ("text-component").toNats then htlTextSection nk
  else if componentType = ("image-component").toNats then htlImageSection nk
  else if componentType = ("button-component").toNats then htlButtonSection nk
  else if componentType = ("container-component").toNats then htlContainerSection nk
  else if componentType = ("hero-component").toNats then htlHeroSection nk
  else if componentType = ("card-component").toNats then htlCardSection nk
  else []

/-- AEMTemplates.generateHTL.  The config lookup throwing on an unregistered
key is modelled as none; the clock read for the generated stamp is the dateIso
parameter.  The fields argument is accepted and never read, as in the source. -/
def generateHTL (componentName componentType : Str) (fields : List GenField)
    (dateIso : Str) : Option Str :=
  (lookupComponentType componentType).map (fun config =>
    let naming := createNamingConventions componentName
    htlHead naming.kebabCase naming.pascalCase config dateIso
      ++ htlFieldSection componentType naming.kebabCase
      ++ htlTail)

/-- The isEmpty switch of generateSlingModel, with its default branch. -/
def smIsEmptyBody (componentType : Str) : Str :=
  if componentType = ("text-component").toNats then smIsEmptyText
  else if componentType = ("image-component").toNats then smIsEmptyImage
  else if componentType = ("button-component").toNats then smIsEmptyButton
  else smIsEmptyDefault

/-- The select default: field.default || field.options[0].  Reading past the
end of an options list would interpolate the undefined value as text. -/
def smDefaultValue (f : GenField) : Str :=
  match f.default with
  | some d => if d.isEmpty then f.options.headD (("undefined").toNats) else d
  | none => f.options.headD (("undefined").toNats)

/-- The per-field-kind switch inside the getter of generateSlingModel. -/
def smGetterBody (f : GenField) (fc : Str) : Str :=
  if f.ftype = ("richtext").toNats then smGetterRichtext fc
  else if f.ftype = ("image").toNats then smGetterImage fc
  else if f.ftype = ("select").toNats then smGetterSelect fc (smDefaultValue f)
  else smGetterDefault fc

/-- One getter of the Sling model. -/
def smGetter (f : GenField) : Str :=
  let fieldNaming := createNamingConventions f.name
  smGetterHead (("get").toNats ++ fieldNaming.pascalCase) (f.label.map toLowerJS)
    ++ smGetterBody f fieldNaming.camelCase
    ++ smGetterClose

/-- The per-type helper-method switch of generateSlingModel; no default. -/
def smHelper (componentType : Str) : Str :=
  if componentType = ("image-component").toNats then smHelperImage
  else if componentType = ("button-component").toNats then smHelperButton
  else if componentType = ("container-component").toNats then smHelperContainer
  else if componentType = ("hero-component").toNats then smHelperHero
  else []

/-- AEMTemplates.generateSlingModel. -/
def generateSlingModel (componentName componentType : Str) (fields : List GenField)
    (packageName : Str) (dateIso : Str) : Option Str :=
  (lookupComponentType componentType).map (fun config =>
    let naming := createNamingConventions componentName
    smHead naming.kebabCase naming.pascalCase config packageName dateIso
      ++ (fields.map (fun f => smFieldDecl (createNamingConventions f.name).camelCase)).flatten
      ++ smIsEmptyHead
      ++ smIsEmptyBody componentType
      ++ smIsEmptyClose
      ++ (fields.map smGetter).flatten
      ++ smHelper componentType
      ++ smClose)

/-- The per-field-kind attribute switch of generateDialog; its default branch
closes the node with no extra attributes. -/
def dlgFieldAttrs (f : GenField) (fc : Str) : Str :=
  if f.ftype = ("richtext").toNats then dlgRichtext fc
  else if f.ftype = ("select").toNats then
    dlgSelectOpen ++ (f.options.map dlgOption).flatten ++ dlgSelectClose fc
  else if f.ftype = ("image").toNats then dlgImage
  else if f.ftype = ("pathfield").toNats then dlgPathfield
  else if f.ftype = ("colorfield").toNats then dlgColorfield
  else if f.ftype = ("textarea").toNats then dlgTextarea
  else dlgDefaultEnd

/-- One field node of the dialog. -/
def dlgField (f : GenField) : Str :=
  let fieldNaming := createNamingConventions f.name
  dlgFieldHead f fieldNaming.camelCase
    ++ (if f.required then dlgRequired else [])
    ++ dlgFieldAttrs f fieldNaming.camelCase

/-- AEMTemplates.generateDialog. -/
def generateDialog (componentName componentType : Str) (fields : List GenField)
    (dateIso : Str) : Option Str :=
  (lookupComponentType componentType).map (fun config =>
    let naming := createNamingConventions componentName
    dlgHead naming.kebabCase config dateIso
      ++ (fields.map dlgField).flatten
      ++ dlgTail)

/-- The per-type style switch of generateCSS; no default branch. -/
def cssTypeSection (componentType nk : Str) : Str :=
  if componentType = ("text-component").toNats then cssTextSection nk
  else if componentType = ("image-component").toNats then cssImageSection nk
  else if componentType = ("button-component").toNats then cssButtonSection nk
  else if componentType = ("container-component").toNats then cssContainerSection nk
  else if componentType = ("hero-component").toNats then cssHeroSection nk
  else if componentType = ("card-component").toNats then cssCardSection nk
  else []

/-- AEMTemplates.generateCSS. -/
def generateCSS (componentName componentType : Str) (dateIso : Str) : Option Str :=
  (lookupComponentType componentType).map (fun config =>
    let naming := createNamingConventions componentName
    cssHead naming.kebabCase config dateIso
      ++ cssTypeSection componentType naming.kebabCase
      ++ cssTail naming.kebabCase)

/-- AEMTemplates.generateReadme; the clock read for the stamp is the dateLoc
parameter. -/
def generateReadme (componentName componentType : Str) (fields : List GenField)
    (dateLoc : Str) : Option Str :=
  (lookupComponentType componentType).map (fun config =>
    let naming := createNamingConventions componentName
    readmeHead naming.kebabCase naming.pascalCase config dateLoc
      ++ (fields.map readmeRow).flatten
      ++ readmeTail naming.kebabCase naming.pascalCase)

/-- The truthiness chain formData[field.name] || field.default || the empty
string, used by generateComponentCode to bind field values.  A checkbox value
of true would later stringify; no catalog field is a checkbox. -/
def boundValue (fd : FormData) (f : GenField) : Str :=
  let dflt : Str :=
    match f.default with
    | some d => if d.isEmpty then [] else d
    | none => []
  match jsGet fd f.name with
  | some (.str s) => if s.isEmpty then dflt else s
  | some (.bool b) => if b then ("true").toNats else dflt
  | none => dflt

/-- The componentFields binding pass of generateComponentCode. -/
def componentFieldsOf (fd : FormData) (config : ComponentConfig) : List GenField :=
  config.fields.map (fun f => { f with value := boundValue fd f })

/-- A generation toggle: formData.generateX !== false, so a toggle is enabled
unless it is the checkbox value false - an absent toggle counts as enabled. -/
def toggleOn (fd : FormData) (key : Str) : Bool :=
  !(decide (jsGet fd key = some (FVal.bool false)))

/-- ComponentGenerator.generateComponentCode from src/js/generator.js: for each
enabled artifact, render its template and store it under its fixed file name,
in the fixed source order.  The markup, model and dialog artifacts pass
through interpolateVariables; the style and docs artifacts are stored as
rendered.  An unregistered component type makes the source throw on the
missing config, modelled as none.  When formData.componentName is not a
string every enabled branch throws a TypeError - in a file-name casing
helper, in createNamingConventions inside the renderer, or in
interpolateVariables - so generation fails unless every toggle is off. -/
def generateComponentCode (fd : FormData) (componentType : Str) (dateIso dateLoc : Str) :
    Option (List (Str × Str)) :=
  match lookupComponentType componentType with
  | none => none
  | some config =>
      match jsGet fd cnK with
      | some (FVal.str cn) =>
          let cfields := componentFieldsOf fd config
          let p1 : Option (List (Str × Str)) :=
            if toggleOn fd (("generateHTL").toNats) then
              (generateHTL cn componentType cfields dateIso).bind (fun c =>
                (interpolateVariables c fd).map
                  (fun ic => [(getKebabCaseName cn ++ (".html").toNats, ic)]))
            else some []
          let p2 : Option (List (Str × Str)) :=
            if toggleOn fd (("generateSlingModel").toNats) then
              (generateSlingModel cn componentType cfields (fdText (jsGet fd pkK)) dateIso).bind
                (fun c => (interpolateVariables c fd).map
                  (fun ic => [(getPascalCaseName cn ++ ("Model.java").toNats, ic)]))
            else some []
          let p3 : Option (List (Str × Str)) :=
            if toggleOn fd (("generateDialog").toNats) then
              (generateDialog cn componentType cfields dateIso).bind (fun c =>
                (interpolateVariables c fd).map
                  (fun ic => [(("_cq_dialog/.content.xml").toNats, ic)]))
            else some []
          let p4 : Option (List (Str × Str)) :=
            if toggleOn fd (("generateCSS").toNats) then
              (generateCSS cn componentType dateIso).map
                (fun c => [(getKebabCaseName cn ++ (".scss").toNats, c)])
            else some []
          let p5 : Option (List (Str × Str)) :=
            if toggleOn fd (("generateReadme").toNats) then
              (generateReadme cn componentType cfields dateLoc).map
                (fun c => [(("README.md").toNats, c)])
            else some []
          p1.bind (fun l1 => p2.bind (fun l2 => p3.bind (fun l3 => p4.bind (fun l4 =>
            p5.map (fun l5 => l1 ++ l2 ++ l3 ++ l4 ++ l5)))))
      | _ =>
          if toggleOn fd (("generateHTL").toNats)
              || toggleOn fd (("generateSlingModel").toNats)
              || toggleOn fd (("generateDialog").toNats)
              || toggleOn fd (("generateCSS").toNats)
              || toggleOn fd (("generateReadme").toNats) then none
          else some []

/-- The initial value of the form input of a catalog field,
fieldConfig.default || the empty string. -/
def fieldInitial (f : GenField) : Str :=
  match f.default with
  | some d => if d.isEmpty then [] else d
  | none => []

/-- The current value of the form input of a catalog field: the user edit when
one exists, the initial value otherwise. -/
def fieldInputValue (vals : Str → Option FVal) (f : GenField) : FVal :=
  (vals f.name).getD (FVal.str (fieldInitial f))

/-- The inputs of the configuration form in DOM order, as built by
UIComponents.createComponentForm: the three required identifier inputs with
their initial values, one input per catalog field (required as declared,
initial value its default), and the five generation-option checkboxes, checked
and never required.  The vals assignment is the user edit state at submit
time; an input missing from vals still holds its initial value. -/
def buildFormInputs (config : ComponentConfig) (vals : Str → Option FVal) : List FInput :=
  [ ⟨cnK, ("Component Name").toNats, (vals cnK).getD (FVal.str []), true⟩,
    ⟨pkK, ("Java Package").toNats, (vals pkK).getD (FVal.str (("com.example.aem.core").toNats)), true⟩,
    ⟨pjK, ("Project Name").toNats, (vals pjK).getD (FVal.str (("myproject").toNats)), true⟩ ]
  ++ config.fields.map (fun f => ⟨f.name, f.label, fieldInputValue vals f, f.required⟩)
  ++ [ ⟨("generateHTL").toNats, ("HTL Template").toNats,
         (vals (("generateHTL").toNats)).getD (FVal.bool true), false⟩,
       ⟨("generateSlingModel").toNats, ("Java Sling Model").toNats,
         (vals (("generateSlingModel").toNats)).getD (FVal.bool true), false⟩,
       ⟨("generateDialog").toNats, ("Touch UI Dialog").toNats,
         (vals (("generateDialog").toNats)).getD (FVal.bool true), false⟩,
       ⟨("generateCSS").toNats, ("Component Styles").toNats,
         (vals (("generateCSS").toNats)).getD (FVal.bool true), false⟩,
       ⟨("generateReadme").toNats, ("Documentation").toNats,
         (vals (("generateReadme").toNats)).getD (FVal.bool true), false⟩ ]

/-- The generate-button flow: the submit listener runs UIComponents.validateForm
and calls onGenerate only when it passes; onGenerate runs
validateGenerationData and stops on failure, then generateComponentCode.  The
result is the generated artifact map, or none when any stage stops. -/
def submitFlow (form : List FInput) (componentType : Str) (dateIso dateLoc : Str) :
    Option (List (Str × Str)) :=
  if validateForm form then
    let fd := getFormData form
    if validateGenerationData fd then generateComponentCode fd componentType dateIso dateLoc
    else none
  else none

/-- Key of the button component type. -/
def btnKey : Str := ("button-component").toNats

/-- The registered configuration of the button component. -/
def btnConfig : ComponentConfig := (lookupComponentType btnKey).getD ⟨[], [], [], [], []⟩

/-- The catalog descriptor of the required button text field. -/
def btnTextField : GenField :=
  mkField (("text").toNats) (("text").toNats) (("Button Text").toNats) true [] none

/-- A fully valid edit state of the button form, the worked example of the
specification. -/
def exampleVals : Str → Option FVal := fun k =>
  if k = cnK then some (FVal.str (("Call To Action").toNats))
  else if k = pkK then some (FVal.str (("com.example.core").toNats))
  else if k = pjK then some (FVal.str (("myproject").toNats))
  else if k = ("text").toNats then some (FVal.str (("Buy Now").toNats))
  else if k = ("url").toNats then some (FVal.str (("/content/x").toNats))
  else none

/-- The same edit state with the required button text blanked out. -/
def exValsBlankText : Str → Option FVal := fun k =>
  if k = ("text").toNats then some (FVal.str []) else exampleVals k

/-- The form data of the valid worked example. -/
def exampleFD : FormData := getFormData (buildFormInputs btnConfig exampleVals)

/-- Form data with two blank identifiers, so that two fields fail the first
validation rule at once. -/
def badFD : FormData :=
  [(cnK, FVal.str []), (pkK, FVal.str []), (pjK, FVal.str (("myproject").toNats))]

/-- A form whose first two required inputs fail different rules: a blank
component name and a package name that breaks the package pattern. -/
def badForm : List FInput :=
  [ ⟨cnK, ("Component Name").toNats, FVal.str [], true⟩,
    ⟨pkK, ("Java Package").toNats, FVal.str (("INVALID PKG").toNats), true⟩,
    ⟨pjK, ("Project Name").toNats, FVal.str (("myproject").toNats), true⟩ ]

/-- A variables object binding nothing. -/
def noStrVars : Str → Option Str := fun _ => none

/-! Helper lemmas about the character-level operations. -/

theorem dashC_eq : dashC = 45 := by decide

theorem map_id_of {f : Nat → Nat} {s : Str} (h : ∀ c ∈ s, f c = c) : s.map f = s := by
  induction s with
  | nil => rfl
  | cons a t ih =>
      simp only [List.map_cons]
      rw [h a (by simp), ih (fun c hc => h c (List.mem_cons_of_mem _ hc))]

theorem mem_replaceNonAlnum {d c : Nat} {s : Str} (h : c ∈ replaceNonAlnum d s) :
    isAlnum c = true ∨ c = d := by
  simp only [replaceNonAlnum, List.mem_map] at h
  obtain ⟨x, -, hx⟩ := h
  by_cases hax : isAlnum x = true
  · left; rw [if_pos hax] at hx; exact hx ▸ hax
  · right; rw [if_neg hax] at hx; exact hx.symm

theorem mem_collapseRun {d c : Nat} : ∀ {s : Str}, c ∈ collapseRun d s → c ∈ s := by
  intro s
  induction s with
  | nil => simp [collapseRun]
  | cons a t ih =>
      cases t with
      | nil => simp [collapseRun]
      | cons b r =>
          simp only [collapseRun]
          split
          · intro h; exact List.mem_cons_of_mem _ (ih h)
          · intro h
            rcases List.mem_cons.mp h with h | h
            · simp [h]
            · exact List.mem_cons_of_mem _ (ih h)

theorem mem_stripLead {d c : Nat} {s : Str} (h : c ∈ stripLead d s) : c ∈ s := by
  cases s with
  | nil => simpa [stripLead] using h
  | cons a rest =>
      simp only [stripLead] at h
      split at h
      · exact List.mem_cons_of_mem _ h
      · exact h

theorem mem_stripTrail {d c : Nat} {s : Str} (h : c ∈ stripTrail d s) : c ∈ s := by
  simp only [stripTrail, List.mem_reverse] at h
  simpa using mem_stripLead h

theorem head?_collapseRun (d : Nat) : ∀ (xs : Str) (x : Nat),
    (collapseRun d (x :: xs)).head? = some x := by
  intro xs
  induction xs with
  | nil => intro x; rfl
  | cons y ys ih =>
      intro x
      simp only [collapseRun]
      split
      · next hxy => rw [ih y, hxy.1, hxy.2]
      · rfl

/-- The collapsed string has no two adjacent d characters. -/
theorem chain'_collapseRun (d : Nat) : ∀ s : Str,
    (collapseRun d s).Chain' (fun a b => ¬(a = d ∧ b = d)) := by
  intro s
  induction s with
  | nil => simp [collapseRun]
  | cons a t ih =>
      cases t with
      | nil => simp [collapseRun]
      | cons b r =>
          simp only [collapseRun]
          split
          · exact ih
          · next hab =>
              rw [List.chain'_cons']
              refine ⟨?_, ih⟩
              intro y hy
              rw [head?_collapseRun d r b] at hy
              intro hcon
              exact hab ⟨hcon.1, (Option.some_inj.mp hy) ▸ hcon.2⟩

theorem toLowerJS_eq_iff {d c : Nat} (hd1 : isLowerA d = false) (hd2 : isUpperA d = false) :
    toLowerJS c = d ↔ (c = d) := by
  simp only [toLowerJS, isUpperA, isLowerA, decide_eq_true_eq, decide_eq_false_iff_not] at *
  split <;> omega

theorem chain'_map_toLowerJS {d : Nat} {s : Str} (hd1 : isLowerA d = false) (hd2 : isUpperA d = false)
    (h : s.Chain' (fun a b => ¬(a = d ∧ b = d))) :
    (s.map toLowerJS).Chain' (fun a b => ¬(a = d ∧ b = d)) := by
  rw [List.chain'_map]
  refine h.imp ?_
  intro a b hab hcon
  exact hab ⟨(toLowerJS_eq_iff hd1 hd2).mp hcon.1, (toLowerJS_eq_iff hd1 hd2).mp hcon.2⟩

theorem chain'_stripLead {d : Nat} {s : Str}
    (h : s.Chain' (fun a b => ¬(a = d ∧ b = d))) :
    (stripLead d s).Chain' (fun a b => ¬(a = d ∧ b = d)) := by
  cases s with
  | nil => simpa [stripLead] using h
  | cons a rest =>
      simp only [stripLead]
      split
      · exact h.tail
      · exact h

theorem chain'_reverse_symm {d : Nat} {s : Str}
    (h : s.Chain' (fun a b => ¬(a = d ∧ b = d))) :
    s.reverse.Chain' (fun a b => ¬(a = d ∧ b = d)) := by
  rw [List.chain'_reverse]
  refine h.imp ?_
  intro a b hab hcon
  exact hab ⟨hcon.2, hcon.1⟩

theorem chain'_stripTrail {d : Nat} {s : Str}
    (h : s.Chain' (fun a b => ¬(a = d ∧ b = d))) :
    (stripTrail d s).Chain' (fun a b => ¬(a = d ∧ b = d)) := by
  exact chain'_reverse_symm (chain'_stripLead (chain'_reverse_symm h))

/-- After stripping one leading d from a run-free string, the head is not d. -/
theorem head?_stripLead_ne {d x : Nat} {s : Str}
    (h : s.Chain' (fun a b => ¬(a = d ∧ b = d)))
    (hx : (stripLead d s).head? = some x) : x ≠ d := by
  cases s with
  | nil => simp [stripLead] at hx
  | cons a rest =>
      simp only [stripLead] at hx
      split at hx
      · next ha =>
          cases rest with
          | nil => simp at hx
          | cons b r =>
              rw [List.chain'_cons'] at h
              have hb := h.1 b rfl
              simp at hx
              intro hc
              exact hb ⟨ha, hx ▸ hc⟩
      · next ha =>
          simp at hx
          intro hc
          exact ha (hx ▸ hc)

theorem head?_dropLast {x : Nat} {s : Str} (h : s.dropLast.head? = some x) :
    s.head? = some x := by
  cases s with
  | nil => simp at h
  | cons a rest =>
      cases rest with
      | nil => simp at h
      | cons b r => simpa using h

theorem stripTrail_eq_or (d : Nat) (s : Str) :
    stripTrail d s = s ∨ stripTrail d s = s.dropLast := by
  simp only [stripTrail]
  cases hrev : s.reverse with
  | nil =>
      left
      have h0 : s = [] := by simpa using congrArg List.reverse hrev
      simp [h0, stripLead]
  | cons a rest =>
      have h1 : s = rest.reverse ++ [a] := by simpa using congrArg List.reverse hrev
      simp only [stripLead]
      split
      · right
        rw [h1, List.dropLast_concat]
      · left
        rw [← hrev, List.reverse_reverse]

theorem head?_stripTrail_ne {d x : Nat} {s : Str}
    (hs : ∀ y, s.head? = some y → y ≠ d)
    (hx : (stripTrail d s).head? = some x) : x ≠ d := by
  rcases stripTrail_eq_or d s with h | h
  · exact hs x (h ▸ hx)
  · exact hs x (head?_dropLast (h ▸ hx))

theorem getLast?_stripTrail_ne {d x : Nat} {s : Str}
    (h : s.Chain' (fun a b => ¬(a = d ∧ b = d)))
    (hx : (stripTrail d s).getLast? = some x) : x ≠ d := by
  have h1 : (stripTrail d s).getLast? = (stripLead d s.reverse).head? := by
    simp [stripTrail]
  exact head?_stripLead_ne (chain'_reverse_symm h) (h1 ▸ hx)

/-! Identity lemmas: each stage of the kebab chain fixes strings that already
satisfy its output invariant. -/

theorem replaceNonAlnum_id {d : Nat} {s : Str}
    (h : ∀ c ∈ s, isAlnum c = true ∨ c = d) : replaceNonAlnum d s = s := by
  refine map_id_of ?_
  intro c hc
  rcases h c hc with h1 | h1
  · simp [h1]
  · by_cases h2 : isAlnum c = true <;> simp [h2, h1]

theorem collapseRun_id {d : Nat} : ∀ {s : Str},
    s.Chain' (fun a b => ¬(a = d ∧ b = d)) → collapseRun d s = s := by
  intro s
  induction s with
  | nil => simp [collapseRun]
  | cons a t ih =>
      cases t with
      | nil => simp [collapseRun]
      | cons b r =>
          intro h
          rw [List.chain'_cons'] at h
          have hab : ¬(a = d ∧ b = d) := h.1 b rfl
          simp only [collapseRun]
          rw [if_neg hab, ih h.2]

theorem map_toLowerJS_id {s : Str} (h : ∀ c ∈ s, isUpperA c = false) :
    s.map toLowerJS = s := by
  refine map_id_of ?_
  intro c hc
  simp [toLowerJS, h c hc]

theorem stripLead_id {d : Nat} {s : Str} (h : ∀ y, s.head? = some y → y ≠ d) :
    stripLead d s = s := by
  cases s with
  | nil => rfl
  | cons a rest =>
      simp only [stripLead]
      rw [if_neg]
      exact h a rfl

theorem stripTrail_id {d : Nat} {s : Str} (h : ∀ y, s.getLast? = some y → y ≠ d) :
    stripTrail d s = s := by
  simp only [stripTrail]
  rw [stripLead_id, List.reverse_reverse]
  intro y hy
  exact h y (by simpa using hy)

/-! Output invariants of the kebab chain. -/

theorem kebabCaseJS_chars {s : Str} :
    ∀ c ∈ kebabCaseJS s, (isLowerA c = true ∨ isDigitA c = true) ∨ c = dashC := by
  intro c hc
  have h1 : c ∈ (collapseRun dashC (replaceNonAlnum dashC s)).map toLowerJS :=
    mem_stripLead (mem_stripTrail hc)
  simp only [List.mem_map] at h1
  obtain ⟨a, ha, hac⟩ := h1
  have h2 := mem_replaceNonAlnum (mem_collapseRun ha)
  subst hac
  rcases h2 with h2 | h2
  · left
    simp only [isAlnum, isLowerA, isUpperA, isDigitA, Bool.or_eq_true, decide_eq_true_eq] at h2 ⊢
    simp only [toLowerJS, isUpperA, decide_eq_true_eq]
    split <;> omega
  · right
    subst h2
    simp [toLowerJS, isUpperA, dashC_eq]

theorem kebabCaseJS_chain' (s : Str) :
    (kebabCaseJS s).Chain' (fun a b => ¬(a = dashC ∧ b = dashC)) := by
  exact chain'_stripTrail (chain'_stripLead
    (chain'_map_toLowerJS (by simp [isLowerA, dashC_eq]) (by simp [isUpperA, dashC_eq]) (chain'_collapseRun dashC _)))

theorem kebabCaseJS_head {s : Str} : ∀ y, (kebabCaseJS s).head? = some y → y ≠ dashC := by
  intro y hy
  refine head?_stripTrail_ne (fun z hz => ?_) hy
  exact head?_stripLead_ne (chain'_map_toLowerJS (by simp [isLowerA, dashC_eq]) (by simp [isUpperA, dashC_eq])
    (chain'_collapseRun dashC _)) hz

theorem kebabCaseJS_last {s : Str} : ∀ y, (kebabCaseJS s).getLast? = some y → y ≠ dashC := by
  intro y hy
  exact getLast?_stripTrail_ne (chain'_stripLead
    (chain'_map_toLowerJS (by simp [isLowerA, dashC_eq]) (by simp [isUpperA, dashC_eq]) (chain'_collapseRun dashC _))) hy

/-- Re-running the kebab chain on its own output changes nothing. -/
theorem kebabCaseJS_idem (s : Str) : kebabCaseJS (kebabCaseJS s) = kebabCaseJS s := by
  have hchars := @kebabCaseJS_chars s
  have hnd := kebabCaseJS_chain' s
  have h1 : ∀ c ∈ kebabCaseJS s, isAlnum c = true ∨ c = dashC := by
    intro c hc
    rcases hchars c hc with h | h
    · left; rcases h with h | h <;> simp [isAlnum, h]
    · right; exact h
  have h2 : ∀ c ∈ kebabCaseJS s, isUpperA c = false := by
    intro c hc
    rcases hchars c hc with h | h
    · simp only [isLowerA, isDigitA, decide_eq_true_eq] at h
      simp only [isUpperA, decide_eq_false_iff_not]
      omega
    · subst h; simp [isUpperA, dashC_eq]
  show stripTrail dashC (stripLead dashC
    ((collapseRun dashC (replaceNonAlnum dashC (kebabCaseJS s))).map toLowerJS)) = kebabCaseJS s
  rw [replaceNonAlnum_id h1, collapseRun_id hnd, map_toLowerJS_id h2,
    stripLead_id (@kebabCaseJS_head s), stripTrail_id (@kebabCaseJS_last s)]

/-! Case-map interaction lemmas used to compare the two pascal and camel
implementations. -/

theorem toUpperJS_toLowerJS (c : Nat) : toUpperJS (toLowerJS c) = toUpperJS c := by
  simp only [toLowerJS, toUpperJS, isUpperA, isLowerA, decide_eq_true_eq]
  split_ifs <;> omega

theorem toLowerJS_toUpperJS_toLowerJS (c : Nat) :
    toLowerJS (toUpperJS (toLowerJS c)) = toLowerJS c := by
  simp only [toLowerJS, toUpperJS, isUpperA, isLowerA, decide_eq_true_eq]
  split_ifs <;> omega

/-! Structure of the word list produced by the trim-collapse-split pipeline. -/

theorem head?_dropWhile {p : Nat → Bool} : ∀ {l : Str} {x : Nat},
    (l.dropWhile p).head? = some x → p x = false := by
  intro l
  induction l with
  | nil => intro x h; simp [List.dropWhile] at h
  | cons a t ih =>
      intro x h
      rw [List.dropWhile_cons] at h
      split at h
      · exact ih h
      · next hpa =>
          simp only [List.head?_cons, Option.some_inj] at h
          subst h
          simpa using hpa

theorem dropWhile_suffix (p : Nat → Bool) : ∀ l : Str, l.dropWhile p <:+ l := by
  intro l
  induction l with
  | nil => exact List.suffix_rfl
  | cons a t ih =>
      rw [List.dropWhile_cons]
      split
      · exact ih.trans (List.suffix_cons a t)
      · exact List.suffix_rfl

theorem head?_of_front {t a : Str} {x : Nat} (hpre : t <+: a) (h : t.head? = some x) :
    a.head? = some x := by
  obtain ⟨r, rfl⟩ := hpre
  cases t with
  | nil => simp at h
  | cons y ys => simpa using h

theorem head?_jsTrim {u : Str} {x : Nat} (h : (jsTrim u).head? = some x) :
    isJsSpace x = false := by
  have hpre : jsTrim u <+: u.dropWhile isJsSpace := by
    rw [jsTrim]
    have hsuf := dropWhile_suffix isJsSpace (u.dropWhile isJsSpace).reverse
    have := hsuf.reverse
    rwa [List.reverse_reverse] at this
  exact head?_dropWhile (head?_of_front hpre h)

/-- The word list of the camel pipeline is either the singleton empty word, or
its first word is nonempty. -/
theorem wordsOf_structure (s : Str) :
    wordsOf s = [[]] ∨ ∃ x w ws, wordsOf s = (x :: w) :: ws := by
  rw [wordsOf]
  cases ht : jsTrim (collapseRun spaceC (replaceNonAlnum spaceC s)) with
  | nil => left; rfl
  | cons x rest =>
      right
      have hx : isJsSpace x = false := head?_jsTrim (by rw [ht]; rfl)
      have hxs : ¬ x = spaceC := by
        intro hc
        subst hc
        simp [isJsSpace, spaceC] at hx
      refine ⟨x, (splitOnChar spaceC rest).headD [], (splitOnChar spaceC rest).tail, ?_⟩
      simp only [splitOnChar]
      rw [if_neg hxs]

/-- The generator pascal helper agrees with the pascalCase naming variant. -/
theorem getPascalCaseName_eq (s : Str) : getPascalCaseName s = pascalCaseJS s := by
  show ((wordsOf s).map capitalizeJS).flatten = pascalCaseJS s
  rcases wordsOf_structure s with h | ⟨x, w, ws, h⟩
  · simp [pascalCaseJS, camelCaseJS, h, capitalizeJS]
  · simp only [pascalCaseJS, camelCaseJS, h, List.map_cons, List.flatten_cons, capitalizeJS,
      List.cons_append]
    rw [toUpperJS_toLowerJS]

/-- The generator camel helper agrees with the camelCase naming variant. -/
theorem getCamelCaseName_eq (s : Str) : getCamelCaseName s = camelCaseJS s := by
  rw [getCamelCaseName, getPascalCaseName_eq]
  rcases wordsOf_structure s with h | ⟨x, w, ws, h⟩
  · simp [pascalCaseJS, camelCaseJS, h, capitalizeJS]
  · simp only [pascalCaseJS, camelCaseJS, h, List.map_cons, List.cons_append]
    rw [toLowerJS_toUpperJS_toLowerJS]

/-! Helper lemmas about blank checks and the identifier regexes. -/

theorem jsTrim_cons_ne_nil {x : Nat} {rest : Str} (hx : isJsSpace x = false) :
    jsTrim (x :: rest) ≠ [] := by
  rw [jsTrim, List.dropWhile_cons, if_neg (by simp [hx])]
  intro hcon
  have h1 : (x :: rest).reverse.dropWhile isJsSpace = [] := by
    simpa using congrArg List.reverse hcon
  have h2 := List.dropWhile_eq_nil_iff.mp h1
  have h3 := h2 x (by simp)
  simp [hx] at h3

theorem alpha_not_space {x : Nat} (h : isAlphaA x = true) : isJsSpace x = false := by
  simp only [isAlphaA, isLowerA, isUpperA, Bool.or_eq_true, decide_eq_true_eq] at h
  simp only [isJsSpace, decide_eq_false_iff_not]
  omega

theorem lower_not_space {x : Nat} (h : isLowerA x = true) : isJsSpace x = false := by
  simp only [isLowerA, decide_eq_true_eq] at h
  simp only [isJsSpace, decide_eq_false_iff_not]
  omega

theorem display_not_blank {s : Str} (h : testDisplayNameRegex s = true) :
    (jsTrim s).isEmpty = false := by
  cases s with
  | nil => simp [testDisplayNameRegex] at h
  | cons x rest =>
      simp only [testDisplayNameRegex, Bool.and_eq_true] at h
      have hne := @jsTrim_cons_ne_nil _ rest (alpha_not_space h.1)
      simpa [List.isEmpty_iff] using hne

theorem package_head {pk : Str} (h : testPackageRegex pk = true) :
    ∃ x rest, pk = x :: rest ∧ isLowerA x = true := by
  cases pk with
  | nil => simp [testPackageRegex, splitOnChar, segLowerAlnum] at h
  | cons c r =>
      simp only [testPackageRegex, splitOnChar] at h
      by_cases hc : c = dotC
      · rw [if_pos hc] at h
        simp [segLowerAlnum] at h
      · rw [if_neg hc] at h
        simp only [List.all_cons, Bool.and_eq_true, segLowerAlnum] at h
        exact ⟨c, r, rfl, h.1.1⟩

theorem package_not_blank {pk : Str} (h : testPackageRegex pk = true) :
    (jsTrim pk).isEmpty = false := by
  obtain ⟨x, rest, rfl, hx⟩ := package_head h
  simpa [List.isEmpty_iff] using @jsTrim_cons_ne_nil _ rest (lower_not_space hx)

theorem project_not_blank {pj : Str} (h : testProjectRegex pj = true) :
    (jsTrim pj).isEmpty = false := by
  cases pj with
  | nil => simp [testProjectRegex, segLowerAlnum] at h
  | cons c r =>
      simp only [testProjectRegex, segLowerAlnum, Bool.and_eq_true] at h
      simpa [List.isEmpty_iff] using @jsTrim_cons_ne_nil _ r (lower_not_space h.1)

theorem jsGet_three (s pk pj : Str) :
    jsGet [(cnK, FVal.str s), (pkK, FVal.str pk), (pjK, FVal.str pj)] cnK = some (FVal.str s)
    ∧ jsGet [(cnK, FVal.str s), (pkK, FVal.str pk), (pjK, FVal.str pj)] pkK = some (FVal.str pk)
    ∧ jsGet [(cnK, FVal.str s), (pkK, FVal.str pk), (pjK, FVal.str pj)] pjK = some (FVal.str pj) := by
  have h1 : ¬ (pkK = cnK) := by decide
  have h2 : ¬ (pjK = cnK) := by decide
  have h3 : ¬ (cnK = pkK) := by decide
  have h4 : ¬ (pjK = pkK) := by decide
  have h5 : ¬ (cnK = pjK) := by decide
  have h6 : ¬ (pkK = pjK) := by decide
  refine ⟨?_, ?_, ?_⟩ <;> simp [jsGet, List.filterMap_cons, h1, h2, h3, h4, h5, h6]

/-! Claim theorems with their witnesses and counterexamples. -/

/-- C2: re-deriving the kebab-case naming variant from an already-derived
kebab-case variant is idempotent: for every string s,
normalize(normalize(s).kebabCase).kebabCase equals normalize(s).kebabCase,
where normalize is createNamingConventions. -/
theorem c2_kebab_idempotent (s : Str) :
    (createNamingConventions ((createNamingConventions s).kebabCase)).kebabCase
      = (createNamingConventions s).kebabCase :=
  kebabCaseJS_idem s

/-- C3: for every display name accepted by the display-name validation regex,
the kebab-case variant of the naming normalizer contains only code units of
lower-case letters, digits and the dash, and neither starts nor ends with a
dash. -/
theorem c3_kebab_charset (s : Str) (h : testDisplayNameRegex s = true) :
    (∀ c ∈ (createNamingConventions s).kebabCase,
        ((97 ≤ c ∧ c ≤ 122) ∨ (48 ≤ c ∧ c ≤ 57)) ∨ c = dashC)
    ∧ (∀ y, ((createNamingConventions s).kebabCase).head? = some y → y ≠ dashC)
    ∧ (∀ y, ((createNamingConventions s).kebabCase).getLast? = some y → y ≠ dashC) := by
  refine ⟨?_, @kebabCaseJS_head s, @kebabCaseJS_last s⟩
  intro c hc
  rcases kebabCaseJS_chars c hc with h1 | h1
  · left
    rcases h1 with h1 | h1
    · left; simpa [isLowerA, decide_eq_true_eq] using h1
    · right; simpa [isDigitA, decide_eq_true_eq] using h1
  · right; exact h1

/-- Witness for C3 at the display name Hero Banner. -/
theorem c3_kebab_charset_witness :
    testDisplayNameRegex (("Hero Banner").toNats) = true
    ∧ ((∀ c ∈ (createNamingConventions (("Hero Banner").toNats)).kebabCase,
          ((97 ≤ c ∧ c ≤ 122) ∨ (48 ≤ c ∧ c ≤ 57)) ∨ c = dashC)
      ∧ (∀ y, ((createNamingConventions (("Hero Banner").toNats)).kebabCase).head? = some y →
          y ≠ dashC)
      ∧ (∀ y, ((createNamingConventions (("Hero Banner").toNats)).kebabCase).getLast? = some y →
          y ≠ dashC)) :=
  ⟨by decide, c3_kebab_charset (("Hero Banner").toNats) (by decide)⟩

/-- C10: the three casing helpers of the generator module agree with the
corresponding variants produced by the templates-module normalizer, on every
input string. -/
theorem c10_casing_agreement (s : Str) :
    getKebabCaseName s = (createNamingConventions s).kebabCase
    ∧ getPascalCaseName s = (createNamingConventions s).pascalCase
    ∧ getCamelCaseName s = (createNamingConventions s).camelCase :=
  ⟨rfl, getPascalCaseName_eq s, getCamelCaseName_eq s⟩

/-- C6: with valid package and project identifiers, validateGenerationData
accepts exactly the display names matching the anchored regex
caret [A-Za-z][A-Za-z0-9 backslash-s] star dollar; in particular the regex
rejects the name 1st Component and accepts the name Hero Banner. -/
theorem c6_displayName_rule :
    (∀ s pk pj, testPackageRegex pk = true → testProjectRegex pj = true →
      (validateGenerationDataE [(cnK, FVal.str s), (pkK, FVal.str pk), (pjK, FVal.str pj)] = none
        ↔ testDisplayNameRegex s = true))
    ∧ testDisplayNameRegex (("1st Component").toNats) = false
    ∧ testDisplayNameRegex (("Hero Banner").toNats) = true := by
  refine ⟨?_, by decide, by decide⟩
  intro s pk pj hpk hpj
  obtain ⟨g1, g2, g3⟩ := jsGet_three s pk pj
  have hbpk : blankFD (some (FVal.str pk)) = false := by
    simp [blankFD, package_not_blank hpk]
  have hbpj : blankFD (some (FVal.str pj)) = false := by
    simp [blankFD, project_not_blank hpj]
  by_cases hd : testDisplayNameRegex s = true
  · have hbs : blankFD (some (FVal.str s)) = false := by
      simp [blankFD, display_not_blank hd]
    simp [validateGenerationDataE, g1, g2, g3, strOf, hbs, hbpk, hbpj, hd, hpk, hpj]
  · have hd2 : testDisplayNameRegex s = false := by
      revert hd; cases testDisplayNameRegex s <;> simp
    constructor
    · intro hnone
      exfalso
      by_cases hbs : blankFD (some (FVal.str s)) = true
      · simp [validateGenerationDataE, g1, hbs] at hnone
      · have hbs2 : blankFD (some (FVal.str s)) = false := by
          revert hbs; cases blankFD (some (FVal.str s)) <;> simp
        simp [validateGenerationDataE, g1, g2, g3, strOf, hbs2, hbpk, hbpj, hd2] at hnone
    · intro hcon
      exact absurd hcon hd

/-- Witness for C6 at the worked identifiers of the specification example. -/
theorem c6_displayName_rule_witness :
    validateGenerationDataE
        [(cnK, FVal.str (("Hero Banner").toNats)),
         (pkK, FVal.str (("com.example.core").toNats)),
         (pjK, FVal.str (("myproject").toNats))] = none
      ↔ testDisplayNameRegex (("Hero Banner").toNats) = true :=
  c6_displayName_rule.1 (("Hero Banner").toNats) (("com.example.core").toNats)
    (("myproject").toNats) (by decide) (by decide)

/-- C7 counterexample: in badFD both the component name and the package name
are blank, so two fields fail the first validation rule, yet
validateGenerationData reports exactly the single component-name error - it
returns at the first failing field instead of accumulating one entry per
failing field. -/
theorem c7_counterexample :
    blankFD (jsGet badFD cnK) = true
    ∧ blankFD (jsGet badFD pkK) = true
    ∧ validateGenerationDataE badFD = some ⟨cnK, msgRequired cnK⟩ := by
  refine ⟨by decide, by decide, by decide⟩

/-- Rewriting the error collection as a filter-then-map pass. -/
theorem filterMap_validateField (l : List FInput) :
    l.filterMap (fun i => (validateField i).map (fun m => (i.name, m)))
      = (l.filter (fun i => (validateField i).isSome)).map
          (fun i => (i.name, (validateField i).getD [])) := by
  induction l with
  | nil => rfl
  | cons a t ih =>
      cases hv : validateField a with
      | none => simp [List.filterMap_cons, List.filter_cons, hv, ih]
      | some m => simp [List.filterMap_cons, List.filter_cons, hv, ih]

/-- C7 amended: the pipeline validator reports only the first failing field
(see the counterexample), while the submit-path form validation accumulates:
validateFormErrors holds one entry per failing required input, in form order,
and per field the blank check short-circuits the pattern checks; validateForm
passes exactly when no required field fails. -/
theorem c7_amended (form : List FInput) :
    validateFormErrors form
      = ((form.filter (fun i => i.required)).filter (fun i => (validateField i).isSome)).map
          (fun i => (i.name, (validateField i).getD []))
    ∧ (validateForm form = true ↔ validateFormErrors form = [])
    ∧ (∀ i ∈ form, i.required = true → (jsTrim (fvalStr i.value)).isEmpty = true →
        validateField i = some (i.label ++ (" is required").toNats)) := by
  refine ⟨filterMap_validateField _, ?_, ?_⟩
  · rw [validateForm, validateFormErrors, List.all_eq_true, List.filterMap_eq_nil_iff]
    constructor
    · intro h i hi
      have := h i hi
      rw [Option.isNone_iff_eq_none] at this
      rw [this]
      rfl
    · intro h i hi
      have := h i hi
      rw [Option.map_eq_none'] at this
      rw [Option.isNone_iff_eq_none]
      exact this
  · intro i hi hreq hblank
    simp [validateField, hreq, hblank]

/-- Witness for C7 amended at a form with two failing required fields: both
errors are collected, in order. -/
theorem c7_amended_witness :
    validateFormErrors badForm
      = [(cnK, ("Component Name is required").toNats), (pkK, msgPackageNameUI)] := by
  have h := (c7_amended badForm).1
  rw [h]
  decide

/-- C8 counterexample: a placeholder token with no bound variable is returned
unchanged by interpolateTemplate, and on the worked example form data - whose
component name is a valid string, so the substitution runs to completion - a
token outside the six fixed names passes through interpolateVariables
unchanged: the unresolved placeholder is silently left in the output and
nothing fails. -/
theorem c8_counterexample :
    interpolateTemplate (tokOf (("componentName").toNats)) noStrVars
        = tokOf (("componentName").toNats)
    ∧ interpolateVariables (tokOf (("somethingElse").toNats)) exampleFD
        = some (tokOf (("somethingElse").toNats)) := by
  constructor
  · decide
  · decide

theorem takeWhile_append_all {p : Nat → Bool} {a : Str} (b : Str)
    (h : ∀ x ∈ a, p x = true) : (a ++ b).takeWhile p = a ++ b.takeWhile p := by
  induction a with
  | nil => simp
  | cons x t ih =>
      simp only [List.cons_append, List.takeWhile_cons]
      rw [h x (by simp), ih (fun y hy => h y (by simp [hy]))]
      simp

theorem interpGo_nil (vars : Str → Option Str) (n : Nat) : interpGo vars n [] = [] := by
  cases n <;> rfl

/-- Matching the token scanner against one whole placeholder token. -/
theorem tokenAt_tokOf {key : Str} (hk : key ≠ [])
    (hw : ∀ c ∈ key, isWordChar c = true) : tokenAt (tokOf key) = some (key, []) := by
  have htw : (key ++ [rbraceC, rbraceC]).takeWhile isWordChar = key := by
    rw [takeWhile_append_all _ hw]
    have : isWordChar rbraceC = false := by decide
    simp [List.takeWhile_cons, this]
  have hkemp : key.isEmpty = false := by
    cases key with
    | nil => exact absurd rfl hk
    | cons c r => rfl
  show tokenAt (lbraceC :: lbraceC :: (key ++ [rbraceC, rbraceC])) = some (key, [])
  rw [tokenAt]
  rw [if_pos ⟨rfl, rfl⟩, htw, hkemp]
  rw [List.drop_left]
  simp

/-- The templates-library interpolateTemplate on one placeholder token: a
bound key is replaced by the bound value and an unbound key is kept as the
match itself, with no error path. -/
theorem interpolateTemplate_single_token (vars : Str → Option Str) (key : Str) (hk : key ≠ [])
    (hw : ∀ c ∈ key, isWordChar c = true) :
    interpolateTemplate (tokOf key) vars
      = match vars key with
        | some v => v
        | none => tokOf key := by
  have hlen : (tokOf key).length = (key.length + 3) + 1 := by
    simp [tokOf]
  rw [interpolateTemplate, hlen]
  show interpGo vars ((key.length + 3) + 1)
      (lbraceC :: lbraceC :: (key ++ [rbraceC, rbraceC])) = _
  rw [interpGo]
  have htok := tokenAt_tokOf hk hw
  rw [show (lbraceC :: lbraceC :: (key ++ [rbraceC, rbraceC])) = tokOf key from rfl, htok]
  show (match vars key with
        | some v => v
        | none => tokOf key) ++ interpGo vars (key.length + 3) [] =
      match vars key with
      | some v => v
      | none => tokOf key
  rw [interpGo_nil, List.append_nil]

theorem replaceAllGo_id (p r : Str) :
    ∀ (n : Nat) (s : Str), hasMatch p s = false → replaceAllGo p r n s = s := by
  intro n
  induction n with
  | zero => intro s _; rfl
  | succ m ih =>
      intro s hs
      cases s with
      | nil => rfl
      | cons c rest =>
          rw [hasMatch, Bool.or_eq_false_iff] at hs
          rw [replaceAllGo, if_neg (by rw [hs.1]; exact fun h => Bool.noConfusion h)]
          rw [ih rest hs.2]

/-- A global replace whose pattern matches nowhere returns the string
unchanged, whatever the replacement text. -/
theorem replaceAll_id (p r s : Str) (h : hasMatch p s = false) : replaceAll p r s = s :=
  replaceAllGo_id p r s.length s h

/-- C8 amended: after per-kind rendering, the markup, logic and schema
artifact texts pass through interpolateVariables - the six fixed global token
replaces, applied to the rendered template text with the request and naming
values - while the style and docs artifacts are stored exactly as rendered,
with no substitution pass; on a request carrying its display name the
substitution always returns, a placeholder token outside the six fixed names
passes through it silently unchanged, and the only failure is a TypeError on
a request with no display name - no RenderError exists. -/
theorem c8_amended (ctype : Str) (config : ComponentConfig)
    (hreg : lookupComponentType ctype = some config)
    (fd : FormData) (cn : Str) (hcn : jsGet fd cnK = some (FVal.str cn))
    (dateIso dateLoc : Str) :
    (∃ htl java dlg css readme,
        generateHTL cn ctype (componentFieldsOf fd config) dateIso = some htl
      ∧ generateSlingModel cn ctype (componentFieldsOf fd config)
            (fdText (jsGet fd pkK)) dateIso = some java
      ∧ generateDialog cn ctype (componentFieldsOf fd config) dateIso = some dlg
      ∧ generateCSS cn ctype dateIso = some css
      ∧ generateReadme cn ctype (componentFieldsOf fd config) dateLoc = some readme
      ∧ generateComponentCode fd ctype dateIso dateLoc = some (
          (if toggleOn fd (("generateHTL").toNats) = true then
            [(getKebabCaseName cn ++ (".html").toNats,
              interpolateVariablesCore htl cn (fdText (jsGet fd pkK)) (fdText (jsGet fd pjK)))]
          else [])
          ++ (if toggleOn fd (("generateSlingModel").toNats) = true then
            [(getPascalCaseName cn ++ ("Model.java").toNats,
              interpolateVariablesCore java cn (fdText (jsGet fd pkK)) (fdText (jsGet fd pjK)))]
          else [])
          ++ (if toggleOn fd (("generateDialog").toNats) = true then
            [(("_cq_dialog/.content.xml").toNats,
              interpolateVariablesCore dlg cn (fdText (jsGet fd pkK)) (fdText (jsGet fd pjK)))]
          else [])
          ++ (if toggleOn fd (("generateCSS").toNats) = true then
            [(getKebabCaseName cn ++ (".scss").toNats, css)]
          else [])
          ++ (if toggleOn fd (("generateReadme").toNats) = true then
            [(("README.md").toNats, readme)]
          else [])))
    ∧ interpolateVariables (tokOf (("somethingElse").toNats)) fd
        = some (tokOf (("somethingElse").toNats))
    ∧ (∀ content fd2, (∀ s, jsGet fd2 cnK ≠ some (FVal.str s)) →
        interpolateVariables content fd2 = none) := by
  obtain ⟨htl, hH⟩ : ∃ c, generateHTL cn ctype (componentFieldsOf fd config) dateIso = some c := by
    rw [generateHTL, hreg]; exact ⟨_, rfl⟩
  obtain ⟨java, hJ⟩ : ∃ c, generateSlingModel cn ctype (componentFieldsOf fd config)
      (fdText (jsGet fd pkK)) dateIso = some c := by
    rw [generateSlingModel, hreg]; exact ⟨_, rfl⟩
  obtain ⟨dlg, hD⟩ : ∃ c, generateDialog cn ctype (componentFieldsOf fd config) dateIso = some c := by
    rw [generateDialog, hreg]; exact ⟨_, rfl⟩
  obtain ⟨css, hC⟩ : ∃ c, generateCSS cn ctype dateIso = some c := by
    rw [generateCSS, hreg]; exact ⟨_, rfl⟩
  obtain ⟨readme, hR⟩ : ∃ c, generateReadme cn ctype (componentFieldsOf fd config) dateLoc = some c := by
    rw [generateReadme, hreg]; exact ⟨_, rfl⟩
  refine ⟨⟨htl, java, dlg, css, readme, hH, hJ, hD, hC, hR, ?_⟩, ?_, ?_⟩
  · have hite : ∀ (c : Bool) (x : List (Str × Str)),
        (if c = true then some x else some ([] : List (Str × Str)))
          = some (if c = true then x else []) := by
      intro c x
      cases c <;> simp
    simp only [generateComponentCode, hreg, hcn, hH, hJ, hD, hC, hR, interpolateVariables,
      Option.some_bind, Option.map_some', hite]
  · simp only [interpolateVariables, hcn, interpolateVariablesCore]
    rw [replaceAll_id (tokOf (("componentPackage").toNats)) (fdText (jsGet fd pkK))
      (tokOf (("somethingElse").toNats)) (by decide)]
    rw [replaceAll_id (tokOf (("projectName").toNats)) (fdText (jsGet fd pjK))
      (tokOf (("somethingElse").toNats)) (by decide)]
    rw [replaceAll_id (tokOf (("componentName").toNats)) cn
      (tokOf (("somethingElse").toNats)) (by decide)]
    rw [replaceAll_id (tokOf (("kebabCase").toNats)) (getKebabCaseName cn)
      (tokOf (("somethingElse").toNats)) (by decide)]
    rw [replaceAll_id (tokOf (("pascalCase").toNats)) (getPascalCaseName cn)
      (tokOf (("somethingElse").toNats)) (by decide)]
    rw [replaceAll_id (tokOf (("camelCase").toNats)) (getCamelCaseName cn)
      (tokOf (("somethingElse").toNats)) (by decide)]
  · intro content fd2 h
    cases hv : jsGet fd2 cnK with
    | none => simp [interpolateVariables, hv]
    | some v =>
        cases v with
        | str s => exact absurd hv (h s)
        | bool b => simp [interpolateVariables, hv]

/-- Witness for C8 amended at the worked button example: the substitution pass
sits on the markup, logic and schema entries only, and the unknown token
passes through unchanged. -/
theorem c8_amended_witness :
    (∃ htl java dlg css readme,
        generateHTL (("Call To Action").toNats) btnKey
            (componentFieldsOf exampleFD btnConfig) (("DI").toNats) = some htl
      ∧ generateSlingModel (("Call To Action").toNats) btnKey
            (componentFieldsOf exampleFD btnConfig)
            (fdText (jsGet exampleFD pkK)) (("DI").toNats) = some java
      ∧ generateDialog (("Call To Action").toNats) btnKey
            (componentFieldsOf exampleFD btnConfig) (("DI").toNats) = some dlg
      ∧ generateCSS (("Call To Action").toNats) btnKey (("DI").toNats) = some css
      ∧ generateReadme (("Call To Action").toNats) btnKey
            (componentFieldsOf exampleFD btnConfig) (("DL").toNats) = some readme
      ∧ generateComponentCode exampleFD btnKey (("DI").toNats) (("DL").toNats) = some (
          (if toggleOn exampleFD (("generateHTL").toNats) = true then
            [(getKebabCaseName (("Call To Action").toNats) ++ (".html").toNats,
              interpolateVariablesCore htl (("Call To Action").toNats)
                (fdText (jsGet exampleFD pkK)) (fdText (jsGet exampleFD pjK)))]
          else [])
          ++ (if toggleOn exampleFD (("generateSlingModel").toNats) = true then
            [(getPascalCaseName (("Call To Action").toNats) ++ ("Model.java").toNats,
              interpolateVariablesCore java (("Call To Action").toNats)
                (fdText (jsGet exampleFD pkK)) (fdText (jsGet exampleFD pjK)))]
          else [])
          ++ (if toggleOn exampleFD (("generateDialog").toNats) = true then
            [(("_cq_dialog/.content.xml").toNats,
              interpolateVariablesCore dlg (("Call To Action").toNats)
                (fdText (jsGet exampleFD pkK)) (fdText (jsGet exampleFD pjK)))]
          else [])
          ++ (if toggleOn exampleFD (("generateCSS").toNats) = true then
            [(getKebabCaseName (("Call To Action").toNats) ++ (".scss").toNats, css)]
          else [])
          ++ (if toggleOn exampleFD (("generateReadme").toNats) = true then
            [(("README.md").toNats, readme)]
          else [])))
    ∧ interpolateVariables (tokOf (("somethingElse").toNats)) exampleFD
        = some (tokOf (("somethingElse").toNats))
    ∧ (∀ content fd2, (∀ s, jsGet fd2 cnK ≠ some (FVal.str s)) →
        interpolateVariables content fd2 = none) :=
  c8_amended btnKey btnConfig (by decide) exampleFD (("Call To Action").toNats)
    (by decide) (("DI").toNats) (("DL").toNats)

/-- C5 counterexample: the dialog renderer does not fail on an unrecognized
field kind; getDialogFieldType silently maps the unknown kind date to the
default textfield widget. -/
theorem c5_counterexample :
    getDialogFieldType (("date").toNats) = ("textfield").toNats
    ∧ (∀ p ∈ fieldTypeMap, ¬ p.1 = ("date").toNats) := by
  constructor
  · decide
  · decide

/-- C5 amended: an unrecognized component type key makes the markup renderer
fail (the config lookup finds nothing and the source throws), but an
unrecognized field kind does not fail: getDialogFieldType silently returns the
default textfield widget. -/
theorem c5_amended (ft : Str) (hft : ∀ p ∈ fieldTypeMap, ¬ p.1 = ft)
    (name ctype : Str) (fields : List GenField) (dateIso : Str)
    (hct : lookupComponentType ctype = none) :
    getDialogFieldType ft = ("textfield").toNats
    ∧ generateHTL name ctype fields dateIso = none := by
  constructor
  · rw [getDialogFieldType]
    have h : fieldTypeMap.filterMap (fun p => if p.1 = ft then some p.2 else none) = [] := by
      rw [List.filterMap_eq_nil_iff]
      intro p hp
      rw [if_neg (hft p hp)]
    rw [h]
    rfl
  · rw [generateHTL, hct]
    rfl

/-- Witness for C5 amended at the unknown kind date and an unregistered type
key. -/
theorem c5_amended_witness :
    getDialogFieldType (("date").toNats) = ("textfield").toNats
    ∧ generateHTL [] (("carousel-component").toNats) [] [] = none :=
  c5_amended (("date").toNats) (by decide) [] (("carousel-component").toNats) [] []
    (by decide)

/-- C1: on the generate action, a request whose three identifier inputs are
valid but whose selected component type declares a required field with a blank
bound value fails the form validation, with an error attributed to that field,
and the rendering engine is never invoked. -/
theorem c1_required_field_blocks (ctype : Str) (config : ComponentConfig)
    (hreg : lookupComponentType ctype = some config)
    (vals : Str → Option FVal) (cn pk pj : Str)
    (hcn : vals cnK = some (FVal.str cn)) (hcnok : testDisplayNameRegex cn = true)
    (hpk : vals pkK = some (FVal.str pk)) (hpkok : testPackageRegex pk = true)
    (hpj : vals pjK = some (FVal.str pj)) (hpjok : testProjectRegex pj = true)
    (f : GenField) (hf : f ∈ config.fields) (hreq : f.required = true)
    (hblank : (jsTrim (fvalStr (fieldInputValue vals f))).isEmpty = true)
    (dateIso dateLoc : Str) :
    validateForm (buildFormInputs config vals) = false
    ∧ (f.name, f.label ++ (" is required").toNats)
        ∈ validateFormErrors (buildFormInputs config vals)
    ∧ submitFlow (buildFormInputs config vals) ctype dateIso dateLoc = none := by
  have hmem : (⟨f.name, f.label, fieldInputValue vals f, f.required⟩ : FInput)
      ∈ buildFormInputs config vals := by
    rw [buildFormInputs]
    refine List.mem_append.mpr (Or.inl (List.mem_append.mpr (Or.inr ?_)))
    exact List.mem_map.mpr ⟨f, hf, rfl⟩
  have hval : validateField ⟨f.name, f.label, fieldInputValue vals f, f.required⟩
      = some (f.label ++ (" is required").toNats) := by
    simp [validateField, hreq, hblank]
  have hfil : (⟨f.name, f.label, fieldInputValue vals f, f.required⟩ : FInput)
      ∈ (buildFormInputs config vals).filter (fun j => j.required) :=
    List.mem_filter.mpr ⟨hmem, by simp [hreq]⟩
  have hvf : validateForm (buildFormInputs config vals) = false := by
    rw [validateForm]
    refine List.all_eq_false.mpr ⟨_, hfil, ?_⟩
    simp [hval]
  refine ⟨hvf, ?_, ?_⟩
  · rw [validateFormErrors]
    refine List.mem_filterMap.mpr ⟨_, hfil, ?_⟩
    simp [hval]
  · simp [submitFlow, hvf]

/-- Witness for C1: the button form of the worked example with the required
button text blanked out. -/
theorem c1_required_field_blocks_witness :
    validateForm (buildFormInputs btnConfig exValsBlankText) = false
    ∧ (btnTextField.name, btnTextField.label ++ (" is required").toNats)
        ∈ validateFormErrors (buildFormInputs btnConfig exValsBlankText)
    ∧ submitFlow (buildFormInputs btnConfig exValsBlankText) btnKey
        (("DATEISO").toNats) (("DATELOC").toNats) = none :=
  c1_required_field_blocks btnKey btnConfig (by decide) exValsBlankText
    (("Call To Action").toNats) (("com.example.core").toNats) (("myproject").toNats)
    (by decide) (by decide) (by decide) (by decide) (by decide) (by decide)
    btnTextField (by decide) (by decide) (by decide) (("DATEISO").toNats) (("DATELOC").toNats)

/-! Disjoint-suffix lemmas used for file-name distinctness. -/

theorem append_ne_append {s t : Str} (hs : ¬ s <:+ t) (ht : ¬ t <:+ s) (a b : Str) :
    a ++ s ≠ b ++ t := by
  intro h
  have h1 : s <:+ b ++ t := h ▸ List.suffix_append a s
  have h2 : t <:+ b ++ t := List.suffix_append b t
  rcases List.suffix_or_suffix_of_suffix h1 h2 with h3 | h3
  · exact hs h3
  · exact ht h3

theorem append_ne_const {s t : Str} (hs : ¬ s <:+ t) (ht : ¬ t <:+ s) (a : Str) :
    a ++ s ≠ t := by
  intro h
  apply append_ne_append hs ht a []
  rw [List.nil_append]
  exact h

theorem if_sublist_singleton (c : Bool) (x : Str) :
    List.Sublist (if c = true then [x] else []) [x] := by
  cases c <;> simp

/-- C4: for a registered component type and a request carrying its display
name - as every validated request does - generation succeeds and the artifact
map holds exactly the artifacts whose toggles are enabled (a toggle not set to
false counts as enabled), under the five fixed file names, which are pairwise
distinct for every display name; the keys of the produced map never repeat. -/
theorem c4_artifact_map (ctype : Str) (config : ComponentConfig)
    (hreg : lookupComponentType ctype = some config)
    (fd : FormData) (cn : Str) (hcn : jsGet fd cnK = some (FVal.str cn))
    (dateIso dateLoc : Str) :
    ∃ code, generateComponentCode fd ctype dateIso dateLoc = some code
      ∧ code.map Prod.fst =
          (if toggleOn fd (("generateHTL").toNats) = true then
            [getKebabCaseName (strOf (jsGet fd cnK)) ++ (".html").toNats] else [])
          ++ (if toggleOn fd (("generateSlingModel").toNats) = true then
            [getPascalCaseName (strOf (jsGet fd cnK)) ++ ("Model.java").toNats] else [])
          ++ (if toggleOn fd (("generateDialog").toNats) = true then
            [("_cq_dialog/.content.xml").toNats] else [])
          ++ (if toggleOn fd (("generateCSS").toNats) = true then
            [getKebabCaseName (strOf (jsGet fd cnK)) ++ (".scss").toNats] else [])
          ++ (if toggleOn fd (("generateReadme").toNats) = true then
            [("README.md").toNats] else [])
      ∧ (code.map Prod.fst).Nodup
      ∧ List.Pairwise (fun a b => a ≠ b)
          [getKebabCaseName (strOf (jsGet fd cnK)) ++ (".html").toNats,
           getPascalCaseName (strOf (jsGet fd cnK)) ++ ("Model.java").toNats,
           ("_cq_dialog/.content.xml").toNats,
           getKebabCaseName (strOf (jsGet fd cnK)) ++ (".scss").toNats,
           ("README.md").toNats] := by
  have h12 : getKebabCaseName (strOf (jsGet fd cnK)) ++ (".html").toNats
      ≠ getPascalCaseName (strOf (jsGet fd cnK)) ++ ("Model.java").toNats :=
    append_ne_append (by decide) (by decide) _ _
  have h13 : getKebabCaseName (strOf (jsGet fd cnK)) ++ (".html").toNats
      ≠ ("_cq_dialog/.content.xml").toNats :=
    append_ne_const (by decide) (by decide) _
  have h14 : getKebabCaseName (strOf (jsGet fd cnK)) ++ (".html").toNats
      ≠ getKebabCaseName (strOf (jsGet fd cnK)) ++ (".scss").toNats :=
    append_ne_append (by decide) (by decide) _ _
  have h15 : getKebabCaseName (strOf (jsGet fd cnK)) ++ (".html").toNats
      ≠ ("README.md").toNats :=
    append_ne_const (by decide) (by decide) _
  have h23 : getPascalCaseName (strOf (jsGet fd cnK)) ++ ("Model.java").toNats
      ≠ ("_cq_dialog/.content.xml").toNats :=
    append_ne_const (by decide) (by decide) _
  have h24 : getPascalCaseName (strOf (jsGet fd cnK)) ++ ("Model.java").toNats
      ≠ getKebabCaseName (strOf (jsGet fd cnK)) ++ (".scss").toNats :=
    append_ne_append (by decide) (by decide) _ _
  have h25 : getPascalCaseName (strOf (jsGet fd cnK)) ++ ("Model.java").toNats
      ≠ ("README.md").toNats :=
    append_ne_const (by decide) (by decide) _
  have h34 : (("_cq_dialog/.content.xml").toNats : Str)
      ≠ getKebabCaseName (strOf (jsGet fd cnK)) ++ (".scss").toNats :=
    (append_ne_const (by decide) (by decide) _).symm
  have h35 : (("_cq_dialog/.content.xml").toNats : Str) ≠ ("README.md").toNats := by decide
  have h45 : getKebabCaseName (strOf (jsGet fd cnK)) ++ (".scss").toNats
      ≠ ("README.md").toNats :=
    append_ne_const (by decide) (by decide) _
  have hp : List.Pairwise (fun a b => a ≠ b)
      [getKebabCaseName (strOf (jsGet fd cnK)) ++ (".html").toNats,
       getPascalCaseName (strOf (jsGet fd cnK)) ++ ("Model.java").toNats,
       ("_cq_dialog/.content.xml").toNats,
       getKebabCaseName (strOf (jsGet fd cnK)) ++ (".scss").toNats,
       ("README.md").toNats] := by
    refine List.Pairwise.cons ?_ (List.Pairwise.cons ?_ (List.Pairwise.cons ?_
      (List.Pairwise.cons ?_ (List.pairwise_singleton _ _))))
    · intro x hx
      simp only [List.mem_cons, List.not_mem_nil, or_false] at hx
      rcases hx with rfl | rfl | rfl | rfl
      exacts [h12, h13, h14, h15]
    · intro x hx
      simp only [List.mem_cons, List.not_mem_nil, or_false] at hx
      rcases hx with rfl | rfl | rfl
      exacts [h23, h24, h25]
    · intro x hx
      simp only [List.mem_cons, List.not_mem_nil, or_false] at hx
      rcases hx with rfl | rfl
      exacts [h34, h35]
    · intro x hx
      simp only [List.mem_cons, List.not_mem_nil, or_false] at hx
      rcases hx with rfl
      exact h45
  have hite : ∀ (c : Bool) (x : List (Str × Str)),
      (if c = true then some x else some ([] : List (Str × Str))) = some (if c = true then x else []) := by
    intro c x
    cases c <;> simp
  simp only [hcn, strOf] at hp
  simp only [generateComponentCode, hreg, hcn, strOf, generateHTL, generateSlingModel,
    generateDialog, generateCSS, generateReadme, interpolateVariables, Option.map_some',
    hite, Option.some_bind]
  refine ⟨_, rfl, ?_, ?_, hp⟩
  · simp [List.map_append, apply_ite (List.map (Prod.fst : Str × Str → Str))]
  · simp only [List.map_append, apply_ite (List.map (Prod.fst : Str × Str → Str)),
      List.map_cons, List.map_nil]
    refine List.Pairwise.sublist ?_ hp
    exact ((((if_sublist_singleton _ _).append (if_sublist_singleton _ _)).append
      (if_sublist_singleton _ _)).append (if_sublist_singleton _ _)).append
      (if_sublist_singleton _ _)

/-- Witness for C4 at the worked button example with every toggle enabled. -/
theorem c4_artifact_map_witness :
    ∃ code, generateComponentCode exampleFD btnKey (("DI").toNats) (("DL").toNats) = some code
      ∧ code.map Prod.fst =
          (if toggleOn exampleFD (("generateHTL").toNats) = true then
            [getKebabCaseName (strOf (jsGet exampleFD cnK)) ++ (".html").toNats] else [])
          ++ (if toggleOn exampleFD (("generateSlingModel").toNats) = true then
            [getPascalCaseName (strOf (jsGet exampleFD cnK)) ++ ("Model.java").toNats] else [])
          ++ (if toggleOn exampleFD (("generateDialog").toNats) = true then
            [("_cq_dialog/.content.xml").toNats] else [])
          ++ (if toggleOn exampleFD (("generateCSS").toNats) = true then
            [getKebabCaseName (strOf (jsGet exampleFD cnK)) ++ (".scss").toNats] else [])
          ++ (if toggleOn exampleFD (("generateReadme").toNats) = true then
            [("README.md").toNats] else [])
      ∧ (code.map Prod.fst).Nodup
      ∧ List.Pairwise (fun a b => a ≠ b)
          [getKebabCaseName (strOf (jsGet exampleFD cnK)) ++ (".html").toNats,
           getPascalCaseName (strOf (jsGet exampleFD cnK)) ++ ("Model.java").toNats,
           ("_cq_dialog/.content.xml").toNats,
           getKebabCaseName (strOf (jsGet exampleFD cnK)) ++ (".scss").toNats,
           ("README.md").toNats] :=
  c4_artifact_map btnKey btnConfig (by decide) exampleFD (("Call To Action").toNats)
    (by decide) (("DI").toNats) (("DL").toNats)

/-- C9: for every registered component type, the docs artifact is the fixed
head, then exactly one table row per field descriptor in declaration order,
then the fixed tail; each row carries the field name, kind, required flag and
label. -/
theorem c9_readme_rows (ctype : Str) (config : ComponentConfig)
    (hreg : lookupComponentType ctype = some config)
    (componentName dateLoc : Str) :
    generateReadme componentName ctype config.fields dateLoc
      = some (readmeHead (createNamingConventions componentName).kebabCase
            (createNamingConventions componentName).pascalCase config dateLoc
          ++ (config.fields.map readmeRow).flatten
          ++ readmeTail (createNamingConventions componentName).kebabCase
            (createNamingConventions componentName).pascalCase)
    ∧ (config.fields.map readmeRow).length = config.fields.length
    ∧ (∀ i (h : i < config.fields.length),
        (config.fields.map readmeRow).get ⟨i, by simpa using h⟩
          = readmeRow (config.fields.get ⟨i, h⟩))
    ∧ (∀ f ∈ config.fields,
        f.name <:+: readmeRow f ∧ f.ftype <:+: readmeRow f
        ∧ (if f.required then ("Yes").toNats else ("No").toNats) <:+: readmeRow f
        ∧ f.label <:+: readmeRow f) := by
  refine ⟨?_, by simp, ?_, ?_⟩
  · rw [generateReadme, hreg]
    rfl
  · intro i h
    simp
  · intro f hf
    refine ⟨?_, ?_, ?_, ?_⟩
    · show f.name <:+: readmeRow f
      have h : readmeRow f = ("\n| ").toNats ++ (f.name ++ ((" | ").toNats ++ f.ftype
          ++ ((" | ").toNats ++ (if f.required then ("Yes").toNats else ("No").toNats)
          ++ ((" | ").toNats ++ f.label ++ (" |").toNats)))) := by
        simp [readmeRow, List.append_assoc]
      rw [h]
      exact List.infix_append' _ _ _
    · have h : readmeRow f = (("\n| ").toNats ++ f.name ++ (" | ").toNats)
          ++ (f.ftype ++ ((" | ").toNats
          ++ (if f.required then ("Yes").toNats else ("No").toNats)
          ++ ((" | ").toNats ++ f.label ++ (" |").toNats))) := by
        simp [readmeRow, List.append_assoc]
      rw [h]
      exact List.infix_append' _ _ _
    · have h : readmeRow f = (("\n| ").toNats ++ f.name ++ (" | ").toNats ++ f.ftype
          ++ (" | ").toNats)
          ++ ((if f.required then ("Yes").toNats else ("No").toNats)
          ++ ((" | ").toNats ++ f.label ++ (" |").toNats)) := by
        simp [readmeRow, List.append_assoc]
      rw [h]
      exact List.infix_append' _ _ _
    · have h : readmeRow f = (("\n| ").toNats ++ f.name ++ (" | ").toNats ++ f.ftype
          ++ (" | ").toNats ++ (if f.required then ("Yes").toNats else ("No").toNats)
          ++ (" | ").toNats) ++ (f.label ++ (" |").toNats) := by
        simp [readmeRow, List.append_assoc]
      rw [h]
      exact List.infix_append' _ _ _

/-- Witness for C9 at the button component. -/
theorem c9_readme_rows_witness :
    generateReadme (("Call To Action").toNats) btnKey btnConfig.fields (("DL").toNats)
      = some (readmeHead (createNamingConventions (("Call To Action").toNats)).kebabCase
            (createNamingConventions (("Call To Action").toNats)).pascalCase btnConfig
            (("DL").toNats)
          ++ (btnConfig.fields.map readmeRow).flatten
          ++ readmeTail (createNamingConventions (("Call To Action").toNats)).kebabCase
            (createNamingConventions (("Call To Action").toNats)).pascalCase)
    ∧ (btnConfig.fields.map readmeRow).length = btnConfig.fields.length
    ∧ (∀ i (h : i < btnConfig.fields.length),
        (btnConfig.fields.map readmeRow).get ⟨i, by simpa using h⟩
          = readmeRow (btnConfig.fields.get ⟨i, h⟩))
    ∧ (∀ f ∈ btnConfig.fields,
        f.name <:+: readmeRow f ∧ f.ftype <:+: readmeRow f
        ∧ (if f.required then ("Yes").toNats else ("No").toNats) <:+: readmeRow f
        ∧ f.label <:+: readmeRow f) :=
  c9_readme_rows btnKey btnConfig (by decide) (("Call To Action").toNats) (("DL").toNats)

end VibeGen
